import Mathlib

/-!
Agora media player core: enumerations, PCM frames and the player contract.

A shallow embedding of `libs/include/IAgoraMediaPlayerTypes.h` and
`libs/include/IAgoraMediaPlayerCore.h`.

* The enumerations `MEDIA_PLAYER_STATE` and `MEDIA_PLAYER_ERROR` are embedded as
  their declarations (enumerator, optional initializer); the integer codes are
  computed with the C++ rule for enumerator values.
* `AudioPcmFrame` and its `operator=` are embedded with `size_t` arithmetic
  modulo `2 ^ 64` and a bounds-checked `memcpy`.
* `IMediaPlayerCore` is an abstract interface (every member is pure virtual);
  the behaviour behind it is modelled from the specification, in the
  definitions marked "Modelled from the spec".
-/

namespace agora.mpc

/-! ## Enumerator values -/

/-- C++ enumerator values: an enumerator with an initializer has that value, an
enumerator without one has the value of the previous enumerator plus one, and
the first enumerator without an initializer has the value `next` (zero at the
start of a declaration). -/
def enumeratorValues {α : Type} : Int → List (α × Option Int) → List (α × Int)
  | _, [] => []
  | _, (a, some v) :: rest => (a, v) :: enumeratorValues (v + 1) rest
  | next, (a, none) :: rest => (a, next) :: enumeratorValues (next + 1) rest

/-! ## `enum MEDIA_PLAYER_STATE` (IAgoraMediaPlayerTypes.h, lines 88-134) -/

/-- The playback state. -/
inductive MEDIA_PLAYER_STATE
  | PLAYER_STATE_IDLE
  | PLAYER_STATE_OPENING
  | PLAYER_STATE_OPEN_COMPLETED
  | PLAYER_STATE_PLAYING
  | PLAYER_STATE_PAUSED
  | PLAYER_STATE_PLAYBACK_COMPLETED
  | PLAYER_STATE_PLAYBACK_ALL_LOOPS_COMPLETED
  | PLAYER_STATE_STOPPED
  | PLAYER_STATE_PAUSING_INTERNAL
  | PLAYER_STATE_STOPPING_INTERNAL
  | PLAYER_STATE_SEEKING_INTERNAL
  | PLAYER_STATE_GETTING_INTERNAL
  | PLAYER_STATE_NONE_INTERNAL
  | PLAYER_STATE_DO_NOTHING_INTERNAL
  | PLAYER_STATE_FAILED
  deriving DecidableEq, Repr, Fintype

namespace MEDIA_PLAYER_STATE

/-- The enumerators in declaration order, each with its initializer if it has
one. -/
def declaration : List (MEDIA_PLAYER_STATE × Option Int) :=
  [ (PLAYER_STATE_IDLE, some 0),
    (PLAYER_STATE_OPENING, none),
    (PLAYER_STATE_OPEN_COMPLETED, none),
    (PLAYER_STATE_PLAYING, none),
    (PLAYER_STATE_PAUSED, none),
    (PLAYER_STATE_PLAYBACK_COMPLETED, none),
    (PLAYER_STATE_PLAYBACK_ALL_LOOPS_COMPLETED, none),
    (PLAYER_STATE_STOPPED, none),
    (PLAYER_STATE_PAUSING_INTERNAL, some 50),
    (PLAYER_STATE_STOPPING_INTERNAL, none),
    (PLAYER_STATE_SEEKING_INTERNAL, none),
    (PLAYER_STATE_GETTING_INTERNAL, none),
    (PLAYER_STATE_NONE_INTERNAL, none),
    (PLAYER_STATE_DO_NOTHING_INTERNAL, none),
    (PLAYER_STATE_FAILED, some 100) ]

/-- The enumerators of the declaration, without their values. -/
def enumerators : List MEDIA_PLAYER_STATE :=
  declaration.map Prod.fst

/-- The integer code of a state, as the declaration assigns it. -/
def code (s : MEDIA_PLAYER_STATE) : Int :=
  ((enumeratorValues 0 declaration).lookup s).getD 0

/-- The states the header marks "(internal)": the `*_INTERNAL` enumerators. -/
def isInternal : MEDIA_PLAYER_STATE → Bool
  | PLAYER_STATE_PAUSING_INTERNAL => true
  | PLAYER_STATE_STOPPING_INTERNAL => true
  | PLAYER_STATE_SEEKING_INTERNAL => true
  | PLAYER_STATE_GETTING_INTERNAL => true
  | PLAYER_STATE_NONE_INTERNAL => true
  | PLAYER_STATE_DO_NOTHING_INTERNAL => true
  | _ => false

/-- The externally observable states: the enumerators not marked internal. -/
def isExternal (s : MEDIA_PLAYER_STATE) : Bool :=
  !s.isInternal

end MEDIA_PLAYER_STATE

/-! ## `enum MEDIA_PLAYER_ERROR` (IAgoraMediaPlayerTypes.h, lines 139-188) -/

/-- Player error code. -/
inductive MEDIA_PLAYER_ERROR
  | PLAYER_ERROR_OK
  | PLAYER_ERROR_INVALID_ARGUMENTS
  | PLAYER_ERROR_FAILED
  | PLAYER_ERROR_NO_RESOURCE
  | PLAYER_ERROR_INVALID_MEDIA_SOURCE
  | PLAYER_ERROR_UNKNOWN_STREAM_TYPE
  | PLAYER_ERROR_NOT_INITIALIZED
  | PLAYER_ERROR_CODEC_NOT_SUPPORTED
  | PLAYER_ERROR_VIDEO_RENDER_FAILED
  | PLAYER_ERROR_INVALID_STATE
  | PLAYER_ERROR_URL_NOT_FOUND
  | PLAYER_ERROR_INVALID_CONNECTION_STATE
  | PLAYER_ERROR_SRC_BUFFER_UNDERFLOW
  | PLAYER_ERROR_INTERRUPTED
  | PLAYER_ERROR_NOT_SUPPORTED
  | PLAYER_ERROR_TOKEN_EXPIRED
  | PLAYER_ERROR_IP_EXPIRED
  deriving DecidableEq, Repr, Fintype

namespace MEDIA_PLAYER_ERROR

/-- The enumerators in declaration order; every one has an initializer. -/
def declaration : List (MEDIA_PLAYER_ERROR × Option Int) :=
  [ (PLAYER_ERROR_OK, some 0),
    (PLAYER_ERROR_INVALID_ARGUMENTS, some (-1)),
    (PLAYER_ERROR_FAILED, some (-2)),
    (PLAYER_ERROR_NO_RESOURCE, some (-3)),
    (PLAYER_ERROR_INVALID_MEDIA_SOURCE, some (-4)),
    (PLAYER_ERROR_UNKNOWN_STREAM_TYPE, some (-5)),
    (PLAYER_ERROR_NOT_INITIALIZED, some (-6)),
    (PLAYER_ERROR_CODEC_NOT_SUPPORTED, some (-7)),
    (PLAYER_ERROR_VIDEO_RENDER_FAILED, some (-8)),
    (PLAYER_ERROR_INVALID_STATE, some (-9)),
    (PLAYER_ERROR_URL_NOT_FOUND, some (-10)),
    (PLAYER_ERROR_INVALID_CONNECTION_STATE, some (-11)),
    (PLAYER_ERROR_SRC_BUFFER_UNDERFLOW, some (-12)),
    (PLAYER_ERROR_INTERRUPTED, some (-13)),
    (PLAYER_ERROR_NOT_SUPPORTED, some (-14)),
    (PLAYER_ERROR_TOKEN_EXPIRED, some (-15)),
    (PLAYER_ERROR_IP_EXPIRED, some (-16)) ]

/-- The enumerators of the declaration, without their values. -/
def enumerators : List MEDIA_PLAYER_ERROR :=
  declaration.map Prod.fst

/-- The integer code of an error, as the declaration assigns it. -/
def code (e : MEDIA_PLAYER_ERROR) : Int :=
  ((enumeratorValues 0 declaration).lookup e).getD 0

/-- The sixteen error kinds of section 7 of the specification, in the order
the section lists them: InvalidArguments, Failed, NoResource, InvalidMediaSource,
UnknownStreamType, NotInitialized, CodecNotSupported, VideoRenderFailed,
InvalidState, UrlNotFound, InvalidConnectionState, BufferUnderflow,
Interrupted, NotSupported, TokenExpired, IpExpired. -/
def errorKinds : List MEDIA_PLAYER_ERROR :=
  [ PLAYER_ERROR_INVALID_ARGUMENTS, PLAYER_ERROR_FAILED, PLAYER_ERROR_NO_RESOURCE,
    PLAYER_ERROR_INVALID_MEDIA_SOURCE, PLAYER_ERROR_UNKNOWN_STREAM_TYPE,
    PLAYER_ERROR_NOT_INITIALIZED, PLAYER_ERROR_CODEC_NOT_SUPPORTED,
    PLAYER_ERROR_VIDEO_RENDER_FAILED, PLAYER_ERROR_INVALID_STATE,
    PLAYER_ERROR_URL_NOT_FOUND, PLAYER_ERROR_INVALID_CONNECTION_STATE,
    PLAYER_ERROR_SRC_BUFFER_UNDERFLOW, PLAYER_ERROR_INTERRUPTED,
    PLAYER_ERROR_NOT_SUPPORTED, PLAYER_ERROR_TOKEN_EXPIRED, PLAYER_ERROR_IP_EXPIRED ]

end MEDIA_PLAYER_ERROR

/-! ## `struct AudioPcmFrame` (IAgoraMediaPlayerTypes.h, lines 365-423) -/

/-- The number of values of a 64-bit `size_t`; `size_t` arithmetic is taken
modulo this number. -/
def SIZE_T_MODULUS : Nat := 2 ^ 64

/-- The value of `sizeof(int16_t)`. -/
def sizeof_int16_t : Nat := 2

/-- The max number of the samples of the data: stereo, 32 kHz, 60 ms. -/
def kMaxDataSizeSamples : Nat := 3840

/-- The max number of the bytes of the data:
`kMaxDataSizeSamples * sizeof(int16_t)`. -/
def kMaxDataSizeBytes : Nat := (kMaxDataSizeSamples * sizeof_int16_t) % SIZE_T_MODULUS

/-- The detailed information of the incoming audio frame in the PCM format.
`data_` is the array `int16_t data_[kMaxDataSizeSamples]`; a frame that exists
in the program has `data_.length = kMaxDataSizeSamples`. -/
structure AudioPcmFrame where
  capture_timestamp : Nat
  samples_per_channel_ : Nat
  sample_rate_hz_ : Int
  num_channels_ : Nat
  bytes_per_sample : Nat
  data_ : List Int
  deriving DecidableEq, Repr

/-- The loop of `memcpy` over `int16_t` samples: copies `count` samples starting
at sample index `i`, reading `src[i]` and writing `dst[i]`. An access outside
either array is undefined behaviour in C++ and is `none` here. -/
def copySamples : Nat → Nat → List Int → List Int → Option (List Int)
  | 0, _, dst, _ => some dst
  | count + 1, i, dst, src =>
    match src[i]? with
    | none => none
    | some v => if i < dst.length then copySamples count (i + 1) (dst.set i v) src else none

/-- The call `memcpy(dst, src, nbytes)` on two `int16_t` arrays, where `nbytes`
is a whole number of samples. -/
def memcpy (dst src : List Int) (nbytes : Nat) : Option (List Int) :=
  copySamples (nbytes / sizeof_int16_t) 0 dst src

/-- The right-hand side of an assignment to a frame `*this`: the frame itself
(`this == &src`) or another object. -/
inductive FrameRef
  | self
  | other (src : AudioPcmFrame)
  deriving DecidableEq, Repr

namespace AudioPcmFrame

/-- The constructor `AudioPcmFrame()`. -/
def init : AudioPcmFrame :=
  { capture_timestamp := 0
    samples_per_channel_ := 0
    sample_rate_hz_ := 0
    num_channels_ := 0
    bytes_per_sample := 2
    data_ := List.replicate kMaxDataSizeSamples 0 }

/-- The local `length` of `operator=` after its clamp: the number of samples
the assignment copies. -/
def copyLength (src : AudioPcmFrame) : Nat :=
  let length := (src.samples_per_channel_ * src.num_channels_) % SIZE_T_MODULUS
  if length > kMaxDataSizeSamples then kMaxDataSizeSamples else length

/-- The member `operator=`: `this.assign r` is `*this` after `*this = src`,
or `none` when the `memcpy` would leave one of the arrays. -/
def assign (this : AudioPcmFrame) : FrameRef → Option AudioPcmFrame
  | FrameRef.self => some this
  | FrameRef.other src =>
    match memcpy this.data_ src.data_ ((src.copyLength * sizeof_int16_t) % SIZE_T_MODULUS) with
    | none => none
    | some d =>
      some { capture_timestamp := src.capture_timestamp
             samples_per_channel_ := src.samples_per_channel_
             sample_rate_hz_ := src.sample_rate_hz_
             num_channels_ := src.num_channels_
             bytes_per_sample := src.bytes_per_sample
             data_ := d }

end AudioPcmFrame

/-! ## `IMediaPlayerCore::setLoopCount` (IAgoraMediaPlayerCore.h, lines 285-295) -/

/-- The looping modes the documentation of `setLoopCount` names. -/
inductive LoopMode
  | forever
  | times
  | once
  deriving DecidableEq, Repr

/-- The three lines of the documentation of the parameter `loopCount`, in the
order they are written, each with its condition:
`=  -1` repeat play same source media forever,
`>  0` repeat play same source media times,
`<= 0` play media source once. -/
def loopCountDoc : List (LoopMode × (Int → Bool)) :=
  [ (LoopMode.forever, fun n => decide (n = -1)),
    (LoopMode.times, fun n => decide (n > 0)),
    (LoopMode.once, fun n => decide (n ≤ 0)) ]

/-- The modes whose documented condition holds for `loopCount = n`. -/
def documentedModes (n : Int) : List LoopMode :=
  (loopCountDoc.filter (fun line => line.2 n)).map Prod.fst

/-! ## The state machine behind `IMediaPlayerCore` (specification, section 4.1)

`IMediaPlayerCore` declares `open`, `play`, `pause`, `stop`, `resume`, `seek`,
`getState` and the observer callback `onPlayerStateChanged`; their
implementation is not part of the repository. -/

/-- Modelled from the spec: the trigger of `requestTransition(target, trigger)`;
the implementation of the state machine is missing. The documented graph
distinguishes the end of a playback with or without loops remaining
("loop>0 ? Opening : AllLoopsCompleted"), an unrecoverable pipeline error, and
the explicit reset triggered by a new `open`; every other request comes from a
caller command or the completion of the work it started. -/
inductive Trigger
  | command
  | playbackEnd (loopsRemain : Bool)
  | pipelineError
  | newOpen
  deriving DecidableEq, Repr

/-- Modelled from the spec: the documented transition graph of section 4.1,
whose implementation is missing:
"Idle → Opening → OpenCompleted → Playing ⇄ Paused → Stopped → Idle;
Playing → PlaybackCompleted → (loop>0 ? Opening : AllLoopsCompleted); any state
→ Failed on unrecoverable pipeline error; Failed → Idle only via an explicit
reset triggered by a new open". `allowed t a b` says that the machine accepts
the change from `a` to `b` on trigger `t`. -/
def allowed (t : Trigger) : MEDIA_PLAYER_STATE → MEDIA_PLAYER_STATE → Bool
  | .PLAYER_STATE_IDLE, .PLAYER_STATE_OPENING => true
  | .PLAYER_STATE_OPENING, .PLAYER_STATE_OPEN_COMPLETED => true
  | .PLAYER_STATE_OPEN_COMPLETED, .PLAYER_STATE_PLAYING => true
  | .PLAYER_STATE_PLAYING, .PLAYER_STATE_PAUSED => true
  | .PLAYER_STATE_PAUSED, .PLAYER_STATE_PLAYING => true
  | .PLAYER_STATE_PAUSED, .PLAYER_STATE_STOPPED => true
  | .PLAYER_STATE_STOPPED, .PLAYER_STATE_IDLE => true
  | .PLAYER_STATE_PLAYING, .PLAYER_STATE_PLAYBACK_COMPLETED => true
  | .PLAYER_STATE_PLAYBACK_COMPLETED, .PLAYER_STATE_OPENING =>
    decide (t = Trigger.playbackEnd true)
  | .PLAYER_STATE_PLAYBACK_COMPLETED, .PLAYER_STATE_PLAYBACK_ALL_LOOPS_COMPLETED =>
    decide (t = Trigger.playbackEnd false)
  | .PLAYER_STATE_FAILED, .PLAYER_STATE_IDLE => decide (t = Trigger.newOpen)
  | _, .PLAYER_STATE_FAILED => decide (t = Trigger.pipelineError)
  | _, _ => false

/-- Modelled from the spec: the failure of `requestTransition`
(`Result<(), InvalidTransition>`). -/
inductive TransitionError
  | InvalidTransition
  deriving DecidableEq, Repr

/-- One accepted change of the externally visible state. -/
structure Transition where
  source : MEDIA_PLAYER_STATE
  target : MEDIA_PLAYER_STATE
  trigger : Trigger
  deriving DecidableEq, Repr

/-- Modelled from the spec: the `StateMachine` of section 4.1, whose
implementation is missing. `current` is the single authoritative playback
state; `overlay` is the private overlay of internal markers of the outstanding
asynchronous operations; `queue` holds the enqueued state-change notifications
`(state, errorCode)`, oldest first, as they are delivered to
`onPlayerStateChanged`; `trace` records the accepted changes of `current`,
oldest first (a record for verification, read by no operation). -/
structure StateMachine where
  current : MEDIA_PLAYER_STATE
  overlay : List MEDIA_PLAYER_STATE
  queue : List (MEDIA_PLAYER_STATE × MEDIA_PLAYER_ERROR)
  trace : List Transition
  deriving DecidableEq, Repr

namespace StateMachine

/-- Modelled from the spec: a new player is `Idle` ("Default state"), with
nothing outstanding and nothing notified. -/
def init : StateMachine :=
  { current := MEDIA_PLAYER_STATE.PLAYER_STATE_IDLE, overlay := [], queue := [], trace := [] }

/-- Modelled from the spec: `requestTransition(target, trigger)` of section
4.1, whose implementation is missing. A transition is accepted only along the
documented graph; "every accepted transition that changes the
externally-visible state enqueues exactly one state-change notification
carrying (state, errorCode)"; a request off the graph fails with
`InvalidTransition` and changes nothing. -/
def requestTransition (target : MEDIA_PLAYER_STATE) (t : Trigger) (ec : MEDIA_PLAYER_ERROR)
    (m : StateMachine) : Except TransitionError StateMachine :=
  if allowed t m.current target then
    if target = m.current then Except.ok m
    else
      Except.ok { m with
        current := target
        queue := m.queue ++ [(target, ec)]
        trace := m.trace ++ [{ source := m.current, target := target, trigger := t }] }
  else Except.error TransitionError.InvalidTransition

/-- A request whose rejection is dropped: the machine after
`requestTransition`, unchanged when the request is rejected. Used for pipeline
completions, which have no caller to report to. -/
def settle (target : MEDIA_PLAYER_STATE) (t : Trigger) (ec : MEDIA_PLAYER_ERROR)
    (m : StateMachine) : StateMachine :=
  match m.requestTransition target t ec with
  | Except.ok m1 => m1
  | Except.error _ => m

/-- Modelled from the spec: the internal markers that section 4.1 puts on the
overlay: "Internal states (SeekingInternal, PausingInternal, StoppingInternal,
GettingInternal) are pushed onto a private overlay while an async
sub-operation is outstanding". -/
def overlayMarker : MEDIA_PLAYER_STATE → Bool
  | .PLAYER_STATE_SEEKING_INTERNAL => true
  | .PLAYER_STATE_PAUSING_INTERNAL => true
  | .PLAYER_STATE_STOPPING_INTERNAL => true
  | .PLAYER_STATE_GETTING_INTERNAL => true
  | _ => false

/-- Modelled from the spec: pushing an internal marker on the overlay; "this
overlay prevents a second concurrent command of the same class", so a marker
that is already outstanding is refused. An internal-only transition enqueues
no notification and leaves the public state alone. -/
def pushInternal (marker : MEDIA_PLAYER_STATE) (m : StateMachine) :
    Except TransitionError StateMachine :=
  if overlayMarker marker && !m.overlay.contains marker then
    Except.ok { m with overlay := marker :: m.overlay }
  else Except.error TransitionError.InvalidTransition

/-- Modelled from the spec: popping a marker on completion of its
sub-operation, back "to the prior externally-visible state". -/
def popInternal (marker : MEDIA_PLAYER_STATE) (m : StateMachine) : StateMachine :=
  { m with overlay := m.overlay.filter (fun x => x != marker) }

end StateMachine

/-! ## The player core (specification, sections 4.2, 4.4 and 5)

The commands are the members of `IMediaPlayerCore` with the same names
(IAgoraMediaPlayerCore.h, lines 213-295 and 435-461). -/

/-- Modelled from the spec: the state of `PlayerCore` that the playback and
preload commands act on; the class implementing `IMediaPlayerCore` is missing.
`sm` is the single state machine; `active` is the key of the single active
session, if any; `pool` holds the keys of the preload pool ("mapping from
source key (URL string) to a preloaded SourceSession"); `loop` is the
loop-count remaining; `pendingSeek` is the target of the outstanding seek
("last-seek-wins"). -/
structure PlayerCore where
  sm : StateMachine
  active : Option String
  pool : List String
  loop : Int
  pendingSeek : Option Int
  deriving DecidableEq, Repr

/-- The commands of `IMediaPlayerCore` that act on the playback state, the
active session and the preload pool. -/
inductive Command
  | openUrl (url : String) (startPos : Int)
  | play
  | pause
  | stop
  | resume
  | seek (newPos : Int)
  | setLoopCount (loopCount : Int)
  | preloadSrc (src : String) (startPos : Int)
  | unloadSrc (src : String)
  | playPreloadedSrc (src : String)
  deriving DecidableEq, Repr

/-- Modelled from the spec: the completions and failures that the decode/render
pipeline reports back to the core ("pipeline executes asynchronously →
completion/error triggers a StateMachine transition"). -/
inductive PipelineEvent
  | openCompleted
  | pauseCompleted
  | stopCompleted
  | seekCompleted
  | endOfStream
  | released
  | error (ec : MEDIA_PLAYER_ERROR)
  deriving DecidableEq, Repr

namespace PlayerCore

/-- Modelled from the spec: a new player: `Idle`, no active session, an empty
pool, no loop. -/
def init : PlayerCore :=
  { sm := StateMachine.init, active := none, pool := [], loop := 0, pendingSeek := none }

/-- The member `getState()`: the public state, never an overlay marker ("while
not misreporting the public state"). -/
def getState (p : PlayerCore) : MEDIA_PLAYER_STATE :=
  p.sm.current

/-- Modelled from the spec: the states in which `seek` is accepted. The spec
names `Idle` as a state where it is not (section 4.1) and `Playing` as one
where it is (section 8); the model accepts it where a source is open and
positioned. -/
def seekable : MEDIA_PLAYER_STATE → Bool
  | .PLAYER_STATE_OPEN_COMPLETED => true
  | .PLAYER_STATE_PLAYING => true
  | .PLAYER_STATE_PAUSED => true
  | .PLAYER_STATE_PLAYBACK_COMPLETED => true
  | _ => false

/-- Modelled from the spec: the effect and the integer status of a command
("0 success, <0 one of the error codes"); the implementation of
`IMediaPlayerCore` is missing. Every command validates its precondition on
the state first ("fail fast with an error code if violated":
`InvalidState`, performing no transition), then its arguments.
* `open` asks for `Opening`; from `Failed` it first performs the explicit reset
  `Failed → Idle`.
* `play` and `resume` ask for `Playing`.
* `pause`, `stop` and `seek` validate, put their internal marker on the
  overlay and return; the visible change comes with the completion.
* `preloadSrc` adds a key to the pool, `unloadSrc` removes one ("fails with
  NotFound otherwise"), `playPreloadedSrc` promotes one: it "removes the entry
  from the pool" and "installs it as the active session and transitions it →
  Playing". A key that is the active session is never added to the pool, and
  a pooled key is never opened as the active session (data-model invariant
  of the pool). -/
def exec : Command → PlayerCore → PlayerCore × Int
  | .openUrl url _, p =>
    let m0 :=
      if p.sm.current = .PLAYER_STATE_FAILED then
        p.sm.settle .PLAYER_STATE_IDLE Trigger.newOpen .PLAYER_ERROR_OK
      else p.sm
    match m0.requestTransition .PLAYER_STATE_OPENING Trigger.command .PLAYER_ERROR_OK with
    | Except.error _ => (p, MEDIA_PLAYER_ERROR.PLAYER_ERROR_INVALID_STATE.code)
    | Except.ok m1 =>
      if p.pool.contains url then (p, MEDIA_PLAYER_ERROR.PLAYER_ERROR_INVALID_ARGUMENTS.code)
      else ({ p with sm := m1, active := some url, pendingSeek := none }, 0)
  | .play, p =>
    match p.sm.requestTransition .PLAYER_STATE_PLAYING Trigger.command .PLAYER_ERROR_OK with
    | Except.error _ => (p, MEDIA_PLAYER_ERROR.PLAYER_ERROR_INVALID_STATE.code)
    | Except.ok m1 => ({ p with sm := m1 }, 0)
  | .resume, p =>
    match p.sm.requestTransition .PLAYER_STATE_PLAYING Trigger.command .PLAYER_ERROR_OK with
    | Except.error _ => (p, MEDIA_PLAYER_ERROR.PLAYER_ERROR_INVALID_STATE.code)
    | Except.ok m1 => ({ p with sm := m1 }, 0)
  | .pause, p =>
    if allowed Trigger.command p.sm.current .PLAYER_STATE_PAUSED then
      match p.sm.pushInternal .PLAYER_STATE_PAUSING_INTERNAL with
      | Except.error _ => (p, MEDIA_PLAYER_ERROR.PLAYER_ERROR_INVALID_STATE.code)
      | Except.ok m1 => ({ p with sm := m1 }, 0)
    else (p, MEDIA_PLAYER_ERROR.PLAYER_ERROR_INVALID_STATE.code)
  | .stop, p =>
    if allowed Trigger.command p.sm.current .PLAYER_STATE_STOPPED then
      match p.sm.pushInternal .PLAYER_STATE_STOPPING_INTERNAL with
      | Except.error _ => (p, MEDIA_PLAYER_ERROR.PLAYER_ERROR_INVALID_STATE.code)
      | Except.ok m1 => ({ p with sm := m1 }, 0)
    else (p, MEDIA_PLAYER_ERROR.PLAYER_ERROR_INVALID_STATE.code)
  | .seek newPos, p =>
    if seekable p.sm.current then
      match p.sm.pushInternal .PLAYER_STATE_SEEKING_INTERNAL with
      | Except.error _ => ({ p with pendingSeek := some newPos }, 0)
      | Except.ok m1 => ({ p with sm := m1, pendingSeek := some newPos }, 0)
    else (p, MEDIA_PLAYER_ERROR.PLAYER_ERROR_INVALID_STATE.code)
  | .setLoopCount loopCount, p => ({ p with loop := loopCount }, 0)
  | .preloadSrc src _, p =>
    if p.active = some src then (p, MEDIA_PLAYER_ERROR.PLAYER_ERROR_INVALID_ARGUMENTS.code)
    else ({ p with pool := if p.pool.contains src then p.pool else src :: p.pool }, 0)
  | .unloadSrc src, p =>
    if p.pool.contains src then ({ p with pool := p.pool.filter (fun k => k != src) }, 0)
    else (p, MEDIA_PLAYER_ERROR.PLAYER_ERROR_URL_NOT_FOUND.code)
  | .playPreloadedSrc src, p =>
    let r :=
      if p.sm.current = .PLAYER_STATE_PLAYING then Except.ok p.sm
      else p.sm.requestTransition .PLAYER_STATE_PLAYING Trigger.command .PLAYER_ERROR_OK
    match r with
    | Except.error _ => (p, MEDIA_PLAYER_ERROR.PLAYER_ERROR_INVALID_STATE.code)
    | Except.ok m1 =>
      if p.pool.contains src then
        ({ p with
            sm := m1
            active := some src
            pool := p.pool.filter (fun k => k != src)
            pendingSeek := none }, 0)
      else (p, MEDIA_PLAYER_ERROR.PLAYER_ERROR_URL_NOT_FOUND.code)

/-- Modelled from the spec: the precondition of each command on the current
public state, read off the documented graph: the states from which the
transition the command stands for is drawn (`open`: `Idle`, or `Failed` through
the reset; `play`/`resume`: `OpenCompleted`, `Paused`; `pause`: `Playing`;
`stop`: `Paused`; `seek`: an open source; `playPreloadedSrc`: `OpenCompleted`,
`Paused`, or already `Playing`). `setLoopCount`, `preloadSrc` and `unloadSrc`
have none. -/
def precondition : Command → MEDIA_PLAYER_STATE → Bool
  | .openUrl _ _, s => s = .PLAYER_STATE_IDLE || s = .PLAYER_STATE_FAILED
  | .play, s => s = .PLAYER_STATE_OPEN_COMPLETED || s = .PLAYER_STATE_PAUSED
  | .resume, s => s = .PLAYER_STATE_OPEN_COMPLETED || s = .PLAYER_STATE_PAUSED
  | .pause, s => s = .PLAYER_STATE_PLAYING
  | .stop, s => s = .PLAYER_STATE_PAUSED
  | .seek _, s =>
    s = .PLAYER_STATE_OPEN_COMPLETED || s = .PLAYER_STATE_PLAYING || s = .PLAYER_STATE_PAUSED
      || s = .PLAYER_STATE_PLAYBACK_COMPLETED
  | .playPreloadedSrc _, s =>
    s = .PLAYER_STATE_OPEN_COMPLETED || s = .PLAYER_STATE_PAUSED || s = .PLAYER_STATE_PLAYING
  | .setLoopCount _, _ => true
  | .preloadSrc _ _, _ => true
  | .unloadSrc _, _ => true

/-- Modelled from the spec: the effect of a pipeline report. A completion asks
the state machine for the visible state of the finished work and is dropped
when the machine refuses it. At the end of a playback the state becomes
`PlaybackCompleted`, one loop is consumed, and the state goes on to `Opening`
when loops remain (`-1` is forever) or to `AllLoopsCompleted` when none do. -/
def report : PipelineEvent → PlayerCore → PlayerCore
  | .openCompleted, p =>
    { p with sm := p.sm.settle .PLAYER_STATE_OPEN_COMPLETED Trigger.command .PLAYER_ERROR_OK }
  | .pauseCompleted, p =>
    if p.sm.overlay.contains .PLAYER_STATE_PAUSING_INTERNAL then
      let m1 := p.sm.popInternal .PLAYER_STATE_PAUSING_INTERNAL
      { p with sm := m1.settle .PLAYER_STATE_PAUSED Trigger.command .PLAYER_ERROR_OK }
    else p
  | .stopCompleted, p =>
    if p.sm.overlay.contains .PLAYER_STATE_STOPPING_INTERNAL then
      let m1 := p.sm.popInternal .PLAYER_STATE_STOPPING_INTERNAL
      { p with sm := m1.settle .PLAYER_STATE_STOPPED Trigger.command .PLAYER_ERROR_OK }
    else p
  | .seekCompleted, p =>
    { p with sm := p.sm.popInternal (.PLAYER_STATE_SEEKING_INTERNAL), pendingSeek := none }
  | .endOfStream, p =>
    match p.sm.requestTransition .PLAYER_STATE_PLAYBACK_COMPLETED Trigger.command (.PLAYER_ERROR_OK) with
    | Except.error _ => p
    | Except.ok m1 =>
      let remaining := if p.loop > 0 then p.loop - 1 else p.loop
      let again := decide (remaining > 0) || decide (remaining = -1)
      let next : MEDIA_PLAYER_STATE :=
        if again then .PLAYER_STATE_OPENING else .PLAYER_STATE_PLAYBACK_ALL_LOOPS_COMPLETED
      { p with
        sm := m1.settle next (Trigger.playbackEnd again) .PLAYER_ERROR_OK
        loop := remaining }
  | .released, p =>
    match p.sm.requestTransition .PLAYER_STATE_IDLE Trigger.command .PLAYER_ERROR_OK with
    | Except.error _ => p
    | Except.ok m1 => { p with sm := m1, active := none, pendingSeek := none }
  | .error ec, p =>
    { p with sm := p.sm.settle .PLAYER_STATE_FAILED Trigger.pipelineError ec }

end PlayerCore

/-- One input of the player: a command of the caller or a report of the
pipeline. -/
inductive Input
  | command (c : Command)
  | pipeline (e : PipelineEvent)
  deriving DecidableEq, Repr

namespace PlayerCore

/-- The player after one input. -/
def step (p : PlayerCore) : Input → PlayerCore
  | Input.command c => (exec c p).1
  | Input.pipeline e => report e p

/-- The player after a sequence of inputs, first input first. -/
def run (p : PlayerCore) (inputs : List Input) : PlayerCore :=
  inputs.foldl step p

/-- The states delivered to `onPlayerStateChanged`, oldest first. -/
def delivered (p : PlayerCore) : List MEDIA_PLAYER_STATE :=
  p.sm.queue.map Prod.fst

end PlayerCore

/-! ## The CDN switch controller (specification, sections 3 and 4.5)

The commands are the members `openWithAgoraCDNSrc`, `getAgoraCDNLineCount`,
`switchAgoraCDNLineByIndex`, `getCurrentAgoraCDNIndex`,
`enableAutoSwitchAgoraCDN` and `renewAgoraCDNSrcToken` of `IMediaPlayerCore`
(IAgoraMediaPlayerCore.h, lines 463-515). -/

/-- Modelled from the spec: `CDNState`, held by the class implementing
`IMediaPlayerCore`, which is missing: "ordered sequence of CDN line endpoints,
current line index, auto-switch enabled flag, current token + timestamp";
`attempts` counts the line switches of the current failure episode. The lines
are empty until the CDN source is opened. -/
structure CDNState where
  lines : List String
  index : Int
  autoSwitch : Bool
  token : String
  timestamp : Int
  attempts : Nat
  deriving DecidableEq, Repr

/-- The CDN commands of `IMediaPlayerCore` and the reports of the pipeline
about the CDN source. -/
inductive CDNInput
  | openWithAgoraCDNSrc (src : String) (startPos : Int)
  | linesResolved (lines : List String)
  | switchAgoraCDNLineByIndex (index : Int)
  | enableAutoSwitchAgoraCDN (enable : Bool)
  | renewAgoraCDNSrcToken (token : String) (ts : Int)
  | lineFailed
  deriving DecidableEq, Repr

namespace CDNState

/-- Modelled from the spec: no CDN source has been opened. -/
def init : CDNState :=
  { lines := [], index := 0, autoSwitch := false, token := "", timestamp := 0, attempts := 0 }

/-- The member `getAgoraCDNLineCount()`: "> 0: number of CDN, <= 0: Failure". -/
def getAgoraCDNLineCount (c : CDNState) : Int :=
  (c.lines.length : Int)

/-- The member `getCurrentAgoraCDNIndex()`: ">= 0: Specific line, < 0:
Failure"; the index is "invalid before the CDN source is opened". -/
def getCurrentAgoraCDNIndex (c : CDNState) : Int :=
  if c.lines.isEmpty then MEDIA_PLAYER_ERROR.PLAYER_ERROR_INVALID_STATE.code else c.index

/-- Modelled from the spec: `switchToLine(index)`, the member
`switchAgoraCDNLineByIndex(int index)`, whose implementation is missing: it
"fails with IndexOutOfRange if index >= lineCount()"; a negative `int` is no
line index either ("0 <= index < count"). The failure is reported as the
negative code of a bad argument. -/
def switchAgoraCDNLineByIndex (i : Int) (c : CDNState) : CDNState × Int :=
  if i < 0 ∨ i ≥ c.getAgoraCDNLineCount then
    (c, MEDIA_PLAYER_ERROR.PLAYER_ERROR_INVALID_ARGUMENTS.code)
  else ({ c with index := i, attempts := 0 }, 0)

/-- Modelled from the spec: the effect of a CDN input and whether it escalates
the session to `Failed`. Opening a CDN source drops the lines of the previous
one; the pipeline then reports the lines and playback starts on the first. A
failed line triggers, with auto-switch enabled, a "failover to the next untried
line (round-robin, bounded to one full cycle per failure episode)"; otherwise,
or when every line has been tried, the failure escalates. -/
def apply : CDNInput → CDNState → CDNState × Bool
  | .openWithAgoraCDNSrc _ _, c => ({ c with lines := [], index := 0, attempts := 0 }, false)
  | .linesResolved ls, c => ({ c with lines := ls, index := 0, attempts := 0 }, ls.isEmpty)
  | .switchAgoraCDNLineByIndex i, c => ((c.switchAgoraCDNLineByIndex i).1, false)
  | .enableAutoSwitchAgoraCDN enable, c => ({ c with autoSwitch := enable }, false)
  | .renewAgoraCDNSrcToken token ts, c => ({ c with token := token, timestamp := ts }, false)
  | .lineFailed, c =>
    if c.autoSwitch && decide (c.attempts < c.lines.length) then
      ({ c with index := (c.index + 1) % c.getAgoraCDNLineCount, attempts := c.attempts + 1 },
        false)
    else (c, true)

/-- The CDN state after a sequence of inputs, first input first. -/
def run (c : CDNState) (inputs : List CDNInput) : CDNState :=
  inputs.foldl (fun c1 input => (apply input c1).1) c

end CDNState

/-! ## The documented graph and the record of visible changes -/

/-- The edges of the documented graph: Idle to Opening, Opening to
OpenCompleted, OpenCompleted to Playing, Playing to Paused and back, Paused to
Stopped, Stopped to Idle, Playing to PlaybackCompleted, PlaybackCompleted to
Opening (loops remaining) or AllLoopsCompleted (none remaining), any state to
Failed, and Failed to Idle only as the reset caused by a new open. -/
def documentedEdge (tr : Transition) : Bool :=
  match tr.source, tr.target with
  | .PLAYER_STATE_IDLE, .PLAYER_STATE_OPENING => true
  | .PLAYER_STATE_OPENING, .PLAYER_STATE_OPEN_COMPLETED => true
  | .PLAYER_STATE_OPEN_COMPLETED, .PLAYER_STATE_PLAYING => true
  | .PLAYER_STATE_PLAYING, .PLAYER_STATE_PAUSED => true
  | .PLAYER_STATE_PAUSED, .PLAYER_STATE_PLAYING => true
  | .PLAYER_STATE_PAUSED, .PLAYER_STATE_STOPPED => true
  | .PLAYER_STATE_STOPPED, .PLAYER_STATE_IDLE => true
  | .PLAYER_STATE_PLAYING, .PLAYER_STATE_PLAYBACK_COMPLETED => true
  | .PLAYER_STATE_PLAYBACK_COMPLETED, .PLAYER_STATE_OPENING =>
    decide (tr.trigger = Trigger.playbackEnd true)
  | .PLAYER_STATE_PLAYBACK_COMPLETED, .PLAYER_STATE_PLAYBACK_ALL_LOOPS_COMPLETED =>
    decide (tr.trigger = Trigger.playbackEnd false)
  | .PLAYER_STATE_FAILED, .PLAYER_STATE_IDLE => decide (tr.trigger = Trigger.newOpen)
  | _, .PLAYER_STATE_FAILED => true
  | _, _ => false

/-- The transitions `trace` lead from state `a` to state `b` without a gap:
the first starts at `a`, each starts where the previous one ended, every one
changes the state, and the last ends at `b`. -/
def linked : MEDIA_PLAYER_STATE → List Transition → MEDIA_PLAYER_STATE → Bool
  | a, [], b => decide (a = b)
  | a, tr :: rest, b =>
    decide (tr.source = a) && decide (tr.target ≠ tr.source) && linked tr.target rest b

/-- The nine externally visible states. -/
def externalStates : List MEDIA_PLAYER_STATE :=
  [ .PLAYER_STATE_IDLE, .PLAYER_STATE_OPENING, .PLAYER_STATE_OPEN_COMPLETED,
    .PLAYER_STATE_PLAYING, .PLAYER_STATE_PAUSED, .PLAYER_STATE_PLAYBACK_COMPLETED,
    .PLAYER_STATE_PLAYBACK_ALL_LOOPS_COMPLETED, .PLAYER_STATE_STOPPED, .PLAYER_STATE_FAILED ]

/-- The invariant of the state machine: only external states are notified,
the recorded changes are documented edges that lead from `Idle` to the current
state, and each is notified exactly once. -/
structure StateMachine.Sound (m : StateMachine) : Prop where
  external : ∀ n ∈ m.queue, n.1.isExternal = true
  documented : m.trace.all documentedEdge = true
  chain : linked MEDIA_PLAYER_STATE.PLAYER_STATE_IDLE m.trace m.current = true
  notified : m.queue.map Prod.fst = m.trace.map Transition.target

/-! ## The documented graph read on the inputs and the notifications

The conditions of the graph are read here on what can be observed from
outside: the input that was given, the loop count before it, the state
reported by `getState` and the states delivered to the observer. -/

/-- Whether loops remain when a playback ends while the loop count is `n`: the
count is `-1` (forever), or it exceeds the one playback that has just ended.
With `setLoopCount(2)` the first end of a playback has a loop remaining and
the second has none; with `n <= 0` other than `-1` the media plays once. -/
def loopsRemainAfter (n : Int) : Bool :=
  decide (n = -1) || decide (n > 1)

/-- The input is the command `open`. -/
def Input.isOpen : Input → Bool
  | Input.command (Command.openUrl _ _) => true
  | _ => false

/-- The input is the report that the pipeline reached the end of the media. -/
def Input.isEndOfStream : Input → Bool
  | Input.pipeline PipelineEvent.endOfStream => true
  | _ => false

/-- The input is the report of an unrecoverable pipeline error. -/
def Input.isPipelineError : Input → Bool
  | Input.pipeline (PipelineEvent.error _) => true
  | _ => false

/-- The change of the visible state from `a` to `b`, made by input `i` on
player `p`, is a change of the documented graph: Idle to Opening, Opening to
OpenCompleted, OpenCompleted to Playing, Playing to Paused and back, Paused to
Stopped, Stopped to Idle, Playing to PlaybackCompleted; PlaybackCompleted to
Opening only at the end of a playback with loops remaining, and to
AllLoopsCompleted only at the end of a playback with none remaining; any state
to Failed only on a pipeline error; Failed to Idle only by the command
`open`. -/
def documentedChange (p : PlayerCore) (i : Input) (a b : MEDIA_PLAYER_STATE) : Bool :=
  match a, b with
  | .PLAYER_STATE_IDLE, .PLAYER_STATE_OPENING => true
  | .PLAYER_STATE_OPENING, .PLAYER_STATE_OPEN_COMPLETED => true
  | .PLAYER_STATE_OPEN_COMPLETED, .PLAYER_STATE_PLAYING => true
  | .PLAYER_STATE_PLAYING, .PLAYER_STATE_PAUSED => true
  | .PLAYER_STATE_PAUSED, .PLAYER_STATE_PLAYING => true
  | .PLAYER_STATE_PAUSED, .PLAYER_STATE_STOPPED => true
  | .PLAYER_STATE_STOPPED, .PLAYER_STATE_IDLE => true
  | .PLAYER_STATE_PLAYING, .PLAYER_STATE_PLAYBACK_COMPLETED => true
  | .PLAYER_STATE_PLAYBACK_COMPLETED, .PLAYER_STATE_OPENING =>
    i.isEndOfStream && loopsRemainAfter p.loop
  | .PLAYER_STATE_PLAYBACK_COMPLETED, .PLAYER_STATE_PLAYBACK_ALL_LOOPS_COMPLETED =>
    i.isEndOfStream && !loopsRemainAfter p.loop
  | .PLAYER_STATE_FAILED, .PLAYER_STATE_IDLE => i.isOpen
  | _, .PLAYER_STATE_FAILED => i.isPipelineError
  | _, _ => false

namespace PlayerCore

end PlayerCore

/-- The default argument of `syncPts` in the declaration
`virtual int switchSrc(const char* src, bool syncPts = true) = 0`. -/
def switchSrc_syncPts_default : Bool := true

/-- The default argument of `syncPts` in the declaration
`virtual int switchAgoraCDNSrc(const char* src, bool syncPts = false) = 0`. -/
def switchAgoraCDNSrc_syncPts_default : Bool := false

/-- A call of `switchSrc` through the interface, with the second argument
given (`some`) or omitted (`none`): an omitted argument is replaced by the
default argument of the declaration. The member is pure virtual; `overrider`
is its final overrider, which is not part of the repository. -/
def switchSrc (overrider : String → Bool → Int) (src : String) (syncPts : Option Bool) : Int :=
  overrider src (syncPts.getD switchSrc_syncPts_default)

/-- A call of `switchAgoraCDNSrc` through the interface, with the second
argument given (`some`) or omitted (`none`); `overrider` is the final overrider
of the pure virtual member. -/
def switchAgoraCDNSrc (overrider : String → Bool → Int) (src : String)
    (syncPts : Option Bool) : Int :=
  overrider src (syncPts.getD switchAgoraCDNSrc_syncPts_default)

/-! ## The documentation of the capacity of `AudioPcmFrame`
(IAgoraMediaPlayerTypes.h, lines 366-381) -/

/-- The number of channels in the comment on `kMaxDataSizeSamples`: "When the
number of audio channel is two". -/
def documentedChannels : Nat := 2

/-- The samples per millisecond in the comment: "the sample rate is 32 kHZ". -/
def documentedSamplesPerMs : Nat := 32

/-- The buffer length in the comment: "the buffer length of the data is
60 ms". -/
def documentedBufferMs : Nat := 60

/-- The value of `sizeof(data_)` for the array
`int16_t data_[kMaxDataSizeSamples]` of a frame. -/
def sizeof_data_ (f : AudioPcmFrame) : Nat :=
  (f.data_.length * sizeof_int16_t) % SIZE_T_MODULUS

namespace AudioPcmFrame

/-- The declared sample count of a frame: `samples_per_channel_ * num_channels_`
as a product of natural numbers, without wrapping. -/
def declaredSamples (f : AudioPcmFrame) : Nat :=
  f.samples_per_channel_ * f.num_channels_

/-- The declared sample count of a frame fits the capacity of `data_`. -/
def declaredWithinCapacity (f : AudioPcmFrame) : Bool :=
  decide (f.declaredSamples ≤ kMaxDataSizeSamples)

/-- A frame whose fields are values of their C++ types and whose `data_` is an
array of `kMaxDataSizeSamples` samples. -/
def representable (f : AudioPcmFrame) : Bool :=
  decide (f.capture_timestamp < 2 ^ 32) && decide (f.samples_per_channel_ < SIZE_T_MODULUS) &&
    decide (f.num_channels_ < SIZE_T_MODULUS) && decide (f.bytes_per_sample < SIZE_T_MODULUS) &&
    decide (f.data_.length = kMaxDataSizeSamples)

/-- A destination used in the examples: a frame of 10 ms of mono audio at
16 kHz whose samples are all 5. -/
def exampleDestination : AudioPcmFrame :=
  { capture_timestamp := 40
    samples_per_channel_ := 160
    sample_rate_hz_ := 16000
    num_channels_ := 1
    bytes_per_sample := 2
    data_ := List.replicate kMaxDataSizeSamples 5 }

/-- A source used in the examples: two stereo samples 7, 8, 9, 10 followed by
silence, declared as 2 samples per channel on 2 channels. -/
def exampleSource : AudioPcmFrame :=
  { capture_timestamp := 50
    samples_per_channel_ := 2
    sample_rate_hz_ := 32000
    num_channels_ := 2
    bytes_per_sample := 2
    data_ := [7, 8, 9, 10] ++ List.replicate (kMaxDataSizeSamples - 4) 0 }

/-- A source whose declared sample count exceeds the capacity: 3841 samples
per channel on one channel. -/
def oversizedSource : AudioPcmFrame :=
  { exampleSource with samples_per_channel_ := 3841, num_channels_ := 1 }

/-- A source whose declared sample count wraps to zero in `size_t`: 2^63
samples per channel on 2 channels. -/
def wrappingSource : AudioPcmFrame :=
  { exampleSource with samples_per_channel_ := 2 ^ 63, num_channels_ := 2 }

end AudioPcmFrame

end agora.mpc

/-! Theorems about the definitions above. -/

namespace agora.mpc

/-! ## The enumerations -/

/-- C2: `MEDIA_PLAYER_STATE` has exactly fifteen enumerators with pairwise
distinct codes; the externally observable ones are exactly the nine states
IDLE=0, OPENING=1, OPEN_COMPLETED=2, PLAYING=3, PAUSED=4, PLAYBACK_COMPLETED=5,
PLAYBACK_ALL_LOOPS_COMPLETED=6, STOPPED=7, FAILED=100, the internal ones are
exactly the six markers PAUSING, STOPPING, SEEKING, GETTING, NONE, DO_NOTHING
with codes 50..55, and a state is internal if and only if its code lies in
50..55. -/
theorem media_player_state_enumeration :
    MEDIA_PLAYER_STATE.enumerators.length = 15 ∧
    MEDIA_PLAYER_STATE.enumerators.Nodup ∧
    (∀ s : MEDIA_PLAYER_STATE, s ∈ MEDIA_PLAYER_STATE.enumerators) ∧
    Fintype.card MEDIA_PLAYER_STATE = 15 ∧
    Function.Injective MEDIA_PLAYER_STATE.code ∧
    (MEDIA_PLAYER_STATE.enumerators.filter MEDIA_PLAYER_STATE.isExternal).map
        (fun s => (s, s.code)) =
      [ (MEDIA_PLAYER_STATE.PLAYER_STATE_IDLE, 0),
        (MEDIA_PLAYER_STATE.PLAYER_STATE_OPENING, 1),
        (MEDIA_PLAYER_STATE.PLAYER_STATE_OPEN_COMPLETED, 2),
        (MEDIA_PLAYER_STATE.PLAYER_STATE_PLAYING, 3),
        (MEDIA_PLAYER_STATE.PLAYER_STATE_PAUSED, 4),
        (MEDIA_PLAYER_STATE.PLAYER_STATE_PLAYBACK_COMPLETED, 5),
        (MEDIA_PLAYER_STATE.PLAYER_STATE_PLAYBACK_ALL_LOOPS_COMPLETED, 6),
        (MEDIA_PLAYER_STATE.PLAYER_STATE_STOPPED, 7),
        (MEDIA_PLAYER_STATE.PLAYER_STATE_FAILED, 100) ] ∧
    (MEDIA_PLAYER_STATE.enumerators.filter MEDIA_PLAYER_STATE.isInternal).map
        (fun s => (s, s.code)) =
      [ (MEDIA_PLAYER_STATE.PLAYER_STATE_PAUSING_INTERNAL, 50),
        (MEDIA_PLAYER_STATE.PLAYER_STATE_STOPPING_INTERNAL, 51),
        (MEDIA_PLAYER_STATE.PLAYER_STATE_SEEKING_INTERNAL, 52),
        (MEDIA_PLAYER_STATE.PLAYER_STATE_GETTING_INTERNAL, 53),
        (MEDIA_PLAYER_STATE.PLAYER_STATE_NONE_INTERNAL, 54),
        (MEDIA_PLAYER_STATE.PLAYER_STATE_DO_NOTHING_INTERNAL, 55) ] ∧
    (∀ s : MEDIA_PLAYER_STATE, s.isInternal = true ↔ 50 ≤ s.code ∧ s.code ≤ 55) ∧
    (∀ s : MEDIA_PLAYER_STATE, s.isExternal = true ↔ ¬ (50 ≤ s.code ∧ s.code ≤ 55)) := by
  refine ⟨by decide, by decide, by decide, by decide, ?_, by decide, by decide, by decide,
    by decide⟩
  intro s t
  revert s t
  decide

/-- The codes of the sixteen error kinds, in the order of section 7. -/
theorem errorKinds_codes :
    MEDIA_PLAYER_ERROR.errorKinds.map MEDIA_PLAYER_ERROR.code =
      [-1, -2, -3, -4, -5, -6, -7, -8, -9, -10, -11, -12, -13, -14, -15, -16] := by
  decide

/-- C3: `PLAYER_ERROR_OK` is 0 and is the only enumerator that is not strictly
negative; the sixteen error kinds of section 7, in the listed order, have the
pairwise distinct codes -1, -2, ..., -16; an integer is the code of an error
kind if and only if it lies in -16..-1. -/
theorem media_player_error_codes :
    MEDIA_PLAYER_ERROR.PLAYER_ERROR_OK.code = 0 ∧
    (∀ e : MEDIA_PLAYER_ERROR, ¬ (e.code < 0) ↔ e = MEDIA_PLAYER_ERROR.PLAYER_ERROR_OK) ∧
    MEDIA_PLAYER_ERROR.errorKinds.length = 16 ∧
    (∀ e : MEDIA_PLAYER_ERROR,
      e ∈ MEDIA_PLAYER_ERROR.errorKinds ↔ e ≠ MEDIA_PLAYER_ERROR.PLAYER_ERROR_OK) ∧
    MEDIA_PLAYER_ERROR.errorKinds.map MEDIA_PLAYER_ERROR.code =
      [-1, -2, -3, -4, -5, -6, -7, -8, -9, -10, -11, -12, -13, -14, -15, -16] ∧
    Function.Injective MEDIA_PLAYER_ERROR.code ∧
    (∀ z : Int,
      (∃ e : MEDIA_PLAYER_ERROR, e ∈ MEDIA_PLAYER_ERROR.errorKinds ∧ e.code = z) ↔
        -16 ≤ z ∧ z ≤ -1) := by
  refine ⟨by decide, by decide, by decide, by decide, by decide, ?_, ?_⟩
  · intro s t
    revert s t
    decide
  · intro z
    have h : (∃ e : MEDIA_PLAYER_ERROR, e ∈ MEDIA_PLAYER_ERROR.errorKinds ∧ e.code = z) ↔
        z ∈ MEDIA_PLAYER_ERROR.errorKinds.map MEDIA_PLAYER_ERROR.code := by
      simp [List.mem_map]
    rw [h, errorKinds_codes]
    simp only [List.mem_cons, List.mem_singleton, List.not_mem_nil, or_false]
    omega

/-! ## `setLoopCount` -/

/-- The documented cases of `setLoopCount` that apply to each integer: both
"= -1" and "<= 0" for -1, only "> 0" for a positive count, only "<= 0" for
the rest. -/
theorem documentedModes_eq (n : Int) :
    documentedModes n =
      if n = -1 then [LoopMode.forever, LoopMode.once]
      else if n > 0 then [LoopMode.times] else [LoopMode.once] := by
  unfold documentedModes loopCountDoc
  by_cases h1 : n = -1
  · subst h1
    decide
  · by_cases h2 : n > 0
    · have h3 : ¬ n ≤ 0 := by omega
      simp [List.filter, h1, h2, h3]
    · have h3 : n ≤ 0 := by omega
      simp [List.filter, h1, h2, h3]

/-! ## `AudioPcmFrame::operator=` -/

/-- The `memcpy` loop succeeds when the copied range lies inside both arrays;
it keeps the length of the destination, and sample `j` of the result is sample
`j` of the source inside the copied range and of the destination outside. -/
theorem copySamples_some (n : Nat) : ∀ (i : Nat) (dst src : List Int),
    i + n ≤ dst.length → i + n ≤ src.length →
    ∃ r, copySamples n i dst src = some r ∧ r.length = dst.length ∧
      ∀ j, r[j]? = if i ≤ j ∧ j < i + n then src[j]? else dst[j]? := by
  induction n with
  | zero =>
    intro i dst src _ _
    refine ⟨dst, rfl, rfl, fun j => ?_⟩
    have h0 : ¬ (i ≤ j ∧ j < i + 0) := by omega
    rw [if_neg h0]
  | succ n ih =>
    intro i dst src hd hs
    have hi : i < src.length := by omega
    have hid : i < dst.length := by omega
    obtain ⟨r, hr, hlen, hget⟩ := ih (i + 1) (dst.set i src[i]) src
      (by simp only [List.length_set]; omega) (by omega)
    refine ⟨r, ?_, by simpa using hlen, fun j => ?_⟩
    · simp only [copySamples, List.getElem?_eq_getElem hi, hid, if_true]
      exact hr
    · rw [hget j, List.getElem?_set]
      by_cases hji : i = j
      · subst hji
        have h1 : ¬ (i + 1 ≤ i ∧ i < i + 1 + n) := by omega
        have h2 : i ≤ i ∧ i < i + (n + 1) := by omega
        simp [h1, h2, hid, hi]
      · by_cases hr1 : i + 1 ≤ j ∧ j < i + 1 + n
        · have h2 : i ≤ j ∧ j < i + (n + 1) := by omega
          simp [hr1, h2]
        · have h2 : ¬ (i ≤ j ∧ j < i + (n + 1)) := by omega
          simp [hr1, h2, hji]

/-- The `memcpy` loop fails as soon as the copied range leaves one of the
arrays. -/
theorem copySamples_bounds (n : Nat) : ∀ (i : Nat) (dst src : List Int) (r : List Int),
    copySamples (n + 1) i dst src = some r → i + (n + 1) ≤ dst.length ∧ i + (n + 1) ≤ src.length := by
  induction n with
  | zero =>
    intro i dst src r h
    simp only [copySamples] at h
    split at h
    · exact absurd h (by simp)
    · rename_i v hv
      split at h
      · rename_i hd
        have := (List.getElem?_eq_some.mp hv).1
        omega
      · exact absurd h (by simp)
  | succ n ih =>
    intro i dst src r h
    rw [copySamples] at h
    split at h
    · exact absurd h (by simp)
    · rename_i v hv
      split at h
      · rename_i hd
        have := ih (i + 1) (dst.set i v) src r h
        simp only [List.length_set] at this
        omega
      · exact absurd h (by simp)

/-- The number of samples `operator=` copies is at most the capacity. -/
theorem copyLength_le (src : AudioPcmFrame) : src.copyLength ≤ kMaxDataSizeSamples := by
  unfold AudioPcmFrame.copyLength
  simp only []
  split
  · exact Nat.le_refl _
  · omega

/-- The byte count handed to `memcpy` is a whole number of samples: the
clamped `length`. -/
theorem copyBytes_samples (src : AudioPcmFrame) :
    ((src.copyLength * sizeof_int16_t) % SIZE_T_MODULUS) / sizeof_int16_t = src.copyLength := by
  have h := copyLength_le src
  have h1 : src.copyLength * sizeof_int16_t < SIZE_T_MODULUS := by
    unfold kMaxDataSizeSamples at h
    unfold sizeof_int16_t SIZE_T_MODULUS
    omega
  rw [Nat.mod_eq_of_lt h1]
  unfold sizeof_int16_t
  omega

/-- C10: for every destination and source frame (each with its 3840-element
`data_` array), `operator=` copies at most `kMaxDataSizeSamples` samples
whatever the source declares; the byte count given to `memcpy` is that many
samples; every sample index it touches lies inside both arrays, so the
bounds-checked copy succeeds and the destination keeps its 3840 samples; a
self-assignment copies nothing. -/
theorem assign_within_capacity (this src : AudioPcmFrame)
    (hthis : this.data_.length = kMaxDataSizeSamples)
    (hsrc : src.data_.length = kMaxDataSizeSamples) :
    src.copyLength ≤ kMaxDataSizeSamples ∧
    ((src.copyLength * sizeof_int16_t) % SIZE_T_MODULUS) / sizeof_int16_t = src.copyLength ∧
    (∀ i, i < src.copyLength → i < src.data_.length ∧ i < this.data_.length) ∧
    this.assign FrameRef.self = some this ∧
    ∃ r, this.assign (FrameRef.other src) = some r ∧
      r.data_.length = kMaxDataSizeSamples := by
  have hle := copyLength_le src
  refine ⟨hle, copyBytes_samples src, fun i hi => ⟨by omega, by omega⟩, rfl, ?_⟩
  obtain ⟨d, hd, hlen, _⟩ := copySamples_some src.copyLength 0 this.data_ src.data_
    (by omega) (by omega)
  refine ⟨⟨src.capture_timestamp, src.samples_per_channel_, src.sample_rate_hz_,
    src.num_channels_, src.bytes_per_sample, d⟩, ?_, ?_⟩
  · simp only [AudioPcmFrame.assign, memcpy, copyBytes_samples, hd]
  · simpa [hthis] using hlen

/-- An instance of C10: a source that declares 2^20 samples per channel on 8
channels is copied into a default-constructed frame without leaving the
arrays. -/
theorem assign_within_capacity_witness :
    ({ AudioPcmFrame.init with samples_per_channel_ := 2 ^ 20, num_channels_ := 8 } :
        AudioPcmFrame).copyLength ≤ kMaxDataSizeSamples ∧
    ∃ r, AudioPcmFrame.init.assign (FrameRef.other
        { AudioPcmFrame.init with samples_per_channel_ := 2 ^ 20, num_channels_ := 8 }) = some r ∧
      r.data_.length = kMaxDataSizeSamples :=
  have h := assign_within_capacity AudioPcmFrame.init
    { AudioPcmFrame.init with samples_per_channel_ := 2 ^ 20, num_channels_ := 8 }
    (by simp [AudioPcmFrame.init]) (by simp [AudioPcmFrame.init])
  ⟨h.1, h.2.2.2.2⟩

/-- Without the clamp the copy would leave the arrays: a `memcpy` of one
sample more than the capacity fails on 3840-element arrays. -/
theorem memcpy_beyond_capacity (dst src : List Int)
    (hdst : dst.length = kMaxDataSizeSamples) :
    memcpy dst src ((kMaxDataSizeSamples + 1) * sizeof_int16_t) = none := by
  cases h : memcpy dst src ((kMaxDataSizeSamples + 1) * sizeof_int16_t) with
  | none => rfl
  | some r =>
    have h2 : (kMaxDataSizeSamples + 1) * sizeof_int16_t / sizeof_int16_t
        = kMaxDataSizeSamples + 1 := by
      unfold sizeof_int16_t
      omega
    unfold memcpy at h
    rw [h2] at h
    have := copySamples_bounds kMaxDataSizeSamples 0 dst src r h
    omega

/-! ## The state machine -/

/-- The graph only leads to externally visible states. -/
theorem allowed_external (t : Trigger) (a b : MEDIA_PLAYER_STATE)
    (h : allowed t a b = true) : b.isExternal = true := by
  cases a <;> cases b <;> simp [allowed] at h <;> rfl

/-- An accepted change of state is a documented edge. -/
theorem allowed_documented (t : Trigger) (a b : MEDIA_PLAYER_STATE)
    (h : allowed t a b = true) :
    documentedEdge { source := a, target := b, trigger := t } = true := by
  cases a <;> cases b <;> simp [allowed] at h <;> simp [documentedEdge, h]

/-- A chain of transitions is extended at its end by one more change. -/
theorem linked_append (tr : List Transition) :
    ∀ (a b c : MEDIA_PLAYER_STATE) (t : Trigger), linked a tr b = true → c ≠ b →
      linked a (tr ++ [{ source := b, target := c, trigger := t }]) c = true := by
  induction tr with
  | nil =>
    intro a b c t h hne
    have hab : a = b := by simpa [linked] using h
    subst hab
    simp [linked, hne]
  | cons x rest ih =>
    intro a b c t h hne
    simp only [linked, Bool.and_eq_true, decide_eq_true_eq] at h
    simp only [List.cons_append, linked, Bool.and_eq_true, decide_eq_true_eq]
    exact ⟨h.1, ih _ _ _ t h.2 hne⟩

/-- The initial machine satisfies the invariant. -/
theorem sound_init : StateMachine.init.Sound :=
  { external := by simp [StateMachine.init]
    documented := by simp [StateMachine.init]
    chain := by simp [StateMachine.init, linked]
    notified := by simp [StateMachine.init] }

/-- An accepted `requestTransition` preserves the invariant. -/
theorem sound_requestTransition (target : MEDIA_PLAYER_STATE) (t : Trigger)
    (ec : MEDIA_PLAYER_ERROR) (m m1 : StateMachine) (hm : m.Sound)
    (h : m.requestTransition target t ec = Except.ok m1) : m1.Sound := by
  unfold StateMachine.requestTransition at h
  by_cases ha : allowed t m.current target = true
  · by_cases he : target = m.current
    · rw [if_pos ha, if_pos he] at h
      cases h
      exact hm
    · rw [if_pos ha, if_neg he] at h
      cases h
      refine { external := ?_, documented := ?_, chain := ?_, notified := ?_ }
      · intro n hn
        simp only [List.mem_append, List.mem_singleton] at hn
        rcases hn with hn | hn
        · exact hm.external n hn
        · subst hn
          exact allowed_external t m.current target ha
      · simp only [List.all_append, Bool.and_eq_true]
        exact ⟨hm.documented, by simp [allowed_documented t m.current target ha]⟩
      · exact linked_append m.trace _ _ _ t hm.chain he
      · simp [hm.notified]
  · rw [if_neg ha] at h
    cases h

/-- The invariant survives `settle`. -/
theorem sound_settle (target : MEDIA_PLAYER_STATE) (t : Trigger) (ec : MEDIA_PLAYER_ERROR)
    (m : StateMachine) (hm : m.Sound) : (m.settle target t ec).Sound := by
  unfold StateMachine.settle
  cases h : m.requestTransition target t ec with
  | error e => exact hm
  | ok m1 => exact sound_requestTransition target t ec m m1 hm h

/-- Pushing an internal marker changes neither the public state nor the
notifications. -/
theorem sound_pushInternal (marker : MEDIA_PLAYER_STATE) (m m1 : StateMachine) (hm : m.Sound)
    (h : m.pushInternal marker = Except.ok m1) : m1.Sound := by
  unfold StateMachine.pushInternal at h
  split at h
  · cases h
    exact { external := hm.external, documented := hm.documented, chain := hm.chain,
            notified := hm.notified }
  · cases h

/-- Popping an internal marker changes neither the public state nor the
notifications. -/
theorem sound_popInternal (marker : MEDIA_PLAYER_STATE) (m : StateMachine) (hm : m.Sound) :
    (m.popInternal marker).Sound :=
  { external := hm.external, documented := hm.documented, chain := hm.chain,
    notified := hm.notified }

/-- Every command preserves the invariant of the state machine. -/
theorem sound_exec (c : Command) (p : PlayerCore) (hp : p.sm.Sound) :
    (PlayerCore.exec c p).1.sm.Sound := by
  cases c with
  | openUrl url startPos =>
    simp only [PlayerCore.exec]
    split
    · exact hp
    · rename_i m1 h
      split
      · exact hp
      · refine sound_requestTransition _ _ _ _ m1 ?_ h
        split
        · exact sound_settle _ _ _ _ hp
        · exact hp
  | play =>
    simp only [PlayerCore.exec]
    split
    · exact hp
    · rename_i m1 h
      exact sound_requestTransition _ _ _ _ m1 hp h
  | resume =>
    simp only [PlayerCore.exec]
    split
    · exact hp
    · rename_i m1 h
      exact sound_requestTransition _ _ _ _ m1 hp h
  | pause =>
    simp only [PlayerCore.exec]
    split
    · split
      · exact hp
      · rename_i m1 h
        exact sound_pushInternal _ _ m1 hp h
    · exact hp
  | stop =>
    simp only [PlayerCore.exec]
    split
    · split
      · exact hp
      · rename_i m1 h
        exact sound_pushInternal _ _ m1 hp h
    · exact hp
  | seek newPos =>
    simp only [PlayerCore.exec]
    split
    · split
      · exact hp
      · rename_i m1 h
        exact sound_pushInternal _ _ m1 hp h
    · exact hp
  | setLoopCount n => exact hp
  | preloadSrc src startPos =>
    simp only [PlayerCore.exec]
    split <;> exact hp
  | unloadSrc src =>
    simp only [PlayerCore.exec]
    split <;> exact hp
  | playPreloadedSrc src =>
    simp only [PlayerCore.exec]
    split
    · exact hp
    · rename_i m1 h
      split
      · by_cases hc : p.sm.current = MEDIA_PLAYER_STATE.PLAYER_STATE_PLAYING
        · simp only [hc, if_true] at h
          cases h
          exact hp
        · simp only [hc, if_false] at h
          exact sound_requestTransition _ _ _ _ m1 hp h
      · exact hp

/-- Every pipeline report preserves the invariant of the state machine. -/
theorem sound_report (e : PipelineEvent) (p : PlayerCore) (hp : p.sm.Sound) :
    (PlayerCore.report e p).sm.Sound := by
  cases e with
  | openCompleted => exact sound_settle _ _ _ _ hp
  | pauseCompleted =>
    simp only [PlayerCore.report]
    split
    · exact sound_settle _ _ _ _ (sound_popInternal _ _ hp)
    · exact hp
  | stopCompleted =>
    simp only [PlayerCore.report]
    split
    · exact sound_settle _ _ _ _ (sound_popInternal _ _ hp)
    · exact hp
  | seekCompleted => exact sound_popInternal _ _ hp
  | endOfStream =>
    simp only [PlayerCore.report]
    split
    · exact hp
    · rename_i m1 h
      exact sound_settle _ _ _ _ (sound_requestTransition _ _ _ _ m1 hp h)
  | released =>
    simp only [PlayerCore.report]
    split
    · exact hp
    · rename_i m1 h
      exact sound_requestTransition _ _ _ _ m1 hp h
  | error ec => exact sound_settle _ _ _ _ hp

/-- Every run preserves the invariant of the state machine. -/
theorem sound_run (inputs : List Input) :
    ∀ p : PlayerCore, p.sm.Sound → (p.run inputs).sm.Sound := by
  induction inputs with
  | nil => intro p hp; exact hp
  | cons i rest ih =>
    intro p hp
    have hstep : (p.step i).sm.Sound := by
      cases i with
      | command c => exact sound_exec c p hp
      | pipeline e => exact sound_report e p hp
    exact ih (p.step i) hstep

/-- An accepted `requestTransition` leaves the machine in the requested
state. -/
theorem requestTransition_current (target : MEDIA_PLAYER_STATE) (t : Trigger)
    (ec : MEDIA_PLAYER_ERROR) (m m1 : StateMachine)
    (h : m.requestTransition target t ec = Except.ok m1) : m1.current = target := by
  unfold StateMachine.requestTransition at h
  by_cases ha : allowed t m.current target = true
  · by_cases he : target = m.current
    · rw [if_pos ha, if_pos he] at h
      cases h
      exact he.symm
    · rw [if_pos ha, if_neg he] at h
      cases h
      rfl
  · rw [if_neg ha] at h
    cases h

/-- An externally visible state is one of the nine, and its code is outside
50..55. -/
theorem external_classified (s : MEDIA_PLAYER_STATE) (h : s.isExternal = true) :
    s ∈ externalStates ∧ s.isInternal = false ∧ ¬ (50 ≤ s.code ∧ s.code ≤ 55) := by
  revert h
  revert s
  decide

/-- C1: for every sequence of commands (and pipeline reports) issued to a new
player, every state delivered to `onPlayerStateChanged` is one of the nine
externally visible states; none of the six internal states (codes 50..55) is
delivered. -/
theorem delivered_states_external (inputs : List Input) (s : MEDIA_PLAYER_STATE)
    (h : s ∈ (PlayerCore.init.run inputs).delivered) :
    s ∈ externalStates ∧ s.isInternal = false ∧ ¬ (50 ≤ s.code ∧ s.code ≤ 55) := by
  have hs := sound_run inputs PlayerCore.init sound_init
  unfold PlayerCore.delivered at h
  obtain ⟨n, hn, rfl⟩ := List.mem_map.mp h
  exact external_classified n.1 (hs.external n hn)

/-- An instance of C1: after `open`, a completed open, `play`, `seek` and
`pause`, the state `Playing` was delivered and is external. -/
theorem delivered_states_external_witness :
    MEDIA_PLAYER_STATE.PLAYER_STATE_PLAYING ∈ externalStates ∧
    MEDIA_PLAYER_STATE.PLAYER_STATE_PLAYING.isInternal = false ∧
    ¬ (50 ≤ MEDIA_PLAYER_STATE.PLAYER_STATE_PLAYING.code ∧
        MEDIA_PLAYER_STATE.PLAYER_STATE_PLAYING.code ≤ 55) :=
  delivered_states_external
    [ Input.command (Command.openUrl "a.mp4" 0), Input.pipeline PipelineEvent.openCompleted,
      Input.command Command.play, Input.command (Command.seek 5), Input.command Command.pause ]
    MEDIA_PLAYER_STATE.PLAYER_STATE_PLAYING (by decide)

/-- The record of accepted changes kept by the state machine: for every
sequence of inputs to a new player it leads from `Idle` to the current state
without a gap, every recorded change is an edge of the graph under the trigger
it was requested with, and the delivered states are the targets of the
recorded changes. -/
theorem recorded_trace_follows_graph (inputs : List Input) :
    (PlayerCore.init.run inputs).sm.trace.all documentedEdge = true ∧
    linked MEDIA_PLAYER_STATE.PLAYER_STATE_IDLE (PlayerCore.init.run inputs).sm.trace
      (PlayerCore.init.run inputs).getState = true ∧
    (PlayerCore.init.run inputs).delivered =
      (PlayerCore.init.run inputs).sm.trace.map Transition.target := by
  have hs := sound_run inputs PlayerCore.init sound_init
  exact ⟨hs.documented, hs.chain, hs.notified⟩

/-- C5: a command whose precondition on the current state is not met returns
`PLAYER_ERROR_INVALID_STATE` (-9) and leaves the whole player as it was: the
playback state is the same and no notification is enqueued. -/
theorem unmet_precondition_invalid_state (c : Command) (p : PlayerCore)
    (h : PlayerCore.precondition c p.getState = false) :
    (PlayerCore.exec c p).2 = MEDIA_PLAYER_ERROR.PLAYER_ERROR_INVALID_STATE.code ∧
    MEDIA_PLAYER_ERROR.PLAYER_ERROR_INVALID_STATE.code = -9 ∧
    (PlayerCore.exec c p).1 = p ∧
    (PlayerCore.exec c p).1.getState = p.getState ∧
    (PlayerCore.exec c p).1.sm.queue = p.sm.queue := by
  have key : (PlayerCore.exec c p).2 = MEDIA_PLAYER_ERROR.PLAYER_ERROR_INVALID_STATE.code ∧
      (PlayerCore.exec c p).1 = p := by
    unfold PlayerCore.getState at h
    cases c <;> revert h <;> cases hc : p.sm.current <;>
      simp [PlayerCore.precondition, PlayerCore.exec, StateMachine.requestTransition,
        allowed, PlayerCore.seekable, hc]
  refine ⟨key.1, by decide, key.2, ?_, ?_⟩
  · rw [key.2]
  · rw [key.2]

/-- An instance of C5: `seek(3)` on a new player, whose state is `Idle`. -/
theorem unmet_precondition_invalid_state_witness :
    (PlayerCore.exec (Command.seek 3) PlayerCore.init).2 = -9 ∧
    (PlayerCore.exec (Command.seek 3) PlayerCore.init).1 = PlayerCore.init :=
  have h := unmet_precondition_invalid_state (Command.seek 3) PlayerCore.init (by decide)
  ⟨h.1.trans h.2.1, h.2.2.1⟩

/-! ## The preload pool -/

/-- Bridge between the test `contains` and membership. -/
theorem contains_iff_mem (l : List String) (a : String) : l.contains a = true ↔ a ∈ l := by
  simp

/-- Every command keeps the pool and the active session apart. -/
theorem disjoint_exec (c : Command) (p : PlayerCore)
    (hp : ∀ k, k ∈ p.pool → p.active ≠ some k) :
    ∀ k, k ∈ (PlayerCore.exec c p).1.pool → (PlayerCore.exec c p).1.active ≠ some k := by
  cases c with
  | openUrl url startPos =>
    simp only [PlayerCore.exec]
    split
    · exact hp
    · by_cases hc : p.pool.contains url = true
      · rw [if_pos hc]
        exact hp
      · rw [if_neg hc]
        intro k hk hak
        simp only [Option.some.injEq] at hak
        subst hak
        exact hc ((contains_iff_mem _ _).mpr hk)
  | play => simp only [PlayerCore.exec]; split <;> exact hp
  | resume => simp only [PlayerCore.exec]; split <;> exact hp
  | pause =>
    simp only [PlayerCore.exec]
    split
    · split <;> exact hp
    · exact hp
  | stop =>
    simp only [PlayerCore.exec]
    split
    · split <;> exact hp
    · exact hp
  | seek newPos =>
    simp only [PlayerCore.exec]
    split
    · split <;> exact hp
    · exact hp
  | setLoopCount n => exact hp
  | preloadSrc src startPos =>
    simp only [PlayerCore.exec]
    by_cases ha : p.active = some src
    · rw [if_pos ha]
      exact hp
    · rw [if_neg ha]
      intro k hk
      by_cases hc : p.pool.contains src = true
      · simp only [hc, if_true] at hk
        exact hp k hk
      · simp only [hc, if_false, List.mem_cons, Bool.false_eq_true] at hk
        rcases hk with hk | hk
        · subst hk
          exact ha
        · exact hp k hk
  | unloadSrc src =>
    simp only [PlayerCore.exec]
    split
    · intro k hk
      exact hp k (List.mem_filter.mp hk).1
    · exact hp
  | playPreloadedSrc src =>
    simp only [PlayerCore.exec]
    split
    · exact hp
    · split
      · intro k hk hak
        simp only [Option.some.injEq] at hak
        subst hak
        have := (List.mem_filter.mp hk).2
        simp at this
      · exact hp

/-- Every pipeline report keeps the pool and the active session apart. -/
theorem disjoint_report (e : PipelineEvent) (p : PlayerCore)
    (hp : ∀ k, k ∈ p.pool → p.active ≠ some k) :
    ∀ k, k ∈ (PlayerCore.report e p).pool → (PlayerCore.report e p).active ≠ some k := by
  cases e with
  | openCompleted => exact hp
  | pauseCompleted => simp only [PlayerCore.report]; split <;> exact hp
  | stopCompleted => simp only [PlayerCore.report]; split <;> exact hp
  | seekCompleted => exact hp
  | endOfStream => simp only [PlayerCore.report]; split <;> exact hp
  | released =>
    simp only [PlayerCore.report]
    split
    · exact hp
    · intro k _ hak
      cases hak
  | error ec => exact hp

/-- Every run keeps the pool and the active session apart. -/
theorem disjoint_run (inputs : List Input) :
    ∀ p : PlayerCore, (∀ k, k ∈ p.pool → p.active ≠ some k) →
      ∀ k, k ∈ (p.run inputs).pool → (p.run inputs).active ≠ some k := by
  induction inputs with
  | nil => intro p hp; exact hp
  | cons i rest ih =>
    intro p hp
    have hstep : ∀ k, k ∈ (p.step i).pool → (p.step i).active ≠ some k := by
      cases i with
      | command c => exact disjoint_exec c p hp
      | pipeline e => exact disjoint_report e p hp
    exact ih (p.step i) hstep

/-- A successful `playPreloadedSrc(key)` removes `key` from the pool, makes it
the active session and leaves the player `Playing`. -/
theorem playPreloadedSrc_success (key : String) (p : PlayerCore)
    (h : (PlayerCore.exec (Command.playPreloadedSrc key) p).2 = 0) :
    key ∉ (PlayerCore.exec (Command.playPreloadedSrc key) p).1.pool ∧
    (PlayerCore.exec (Command.playPreloadedSrc key) p).1.active = some key ∧
    (PlayerCore.exec (Command.playPreloadedSrc key) p).1.getState =
      MEDIA_PLAYER_STATE.PLAYER_STATE_PLAYING := by
  have h9 : MEDIA_PLAYER_ERROR.PLAYER_ERROR_INVALID_STATE.code ≠ 0 := by decide
  have h10 : MEDIA_PLAYER_ERROR.PLAYER_ERROR_URL_NOT_FOUND.code ≠ 0 := by decide
  revert h
  simp only [PlayerCore.exec]
  split
  · intro h
    exact absurd h h9
  · rename_i m1 hr
    split
    · intro _
      refine ⟨?_, rfl, ?_⟩
      · intro hk
        have := (List.mem_filter.mp hk).2
        simp at this
      · by_cases hc : p.sm.current = MEDIA_PLAYER_STATE.PLAYER_STATE_PLAYING
        · rw [if_pos hc] at hr
          cases hr
          exact hc
        · rw [if_neg hc] at hr
          exact requestTransition_current _ _ _ _ m1 hr
    · intro h
      exact absurd h h10

/-- C6: in every state a new player reaches, no key is both in the preload pool
and the active session; and after `preloadSrc(key, t)` followed by a successful
`playPreloadedSrc(key)`, `key` is no longer in the pool, it is the active
session, and the state is `Playing`. -/
theorem pool_never_holds_active (inputs : List Input) (key : String) (t : Int) :
    (∀ k, k ∈ (PlayerCore.init.run inputs).pool →
      (PlayerCore.init.run inputs).active ≠ some k) ∧
    ((PlayerCore.exec (Command.playPreloadedSrc key)
        (PlayerCore.exec (Command.preloadSrc key t) (PlayerCore.init.run inputs)).1).2 = 0 →
      key ∉ (PlayerCore.exec (Command.playPreloadedSrc key)
        (PlayerCore.exec (Command.preloadSrc key t) (PlayerCore.init.run inputs)).1).1.pool ∧
      (PlayerCore.exec (Command.playPreloadedSrc key)
        (PlayerCore.exec (Command.preloadSrc key t) (PlayerCore.init.run inputs)).1).1.active
          = some key ∧
      (PlayerCore.exec (Command.playPreloadedSrc key)
        (PlayerCore.exec (Command.preloadSrc key t) (PlayerCore.init.run inputs)).1).1.getState
          = MEDIA_PLAYER_STATE.PLAYER_STATE_PLAYING) :=
  ⟨disjoint_run inputs PlayerCore.init (by simp [PlayerCore.init]),
    fun h => playPreloadedSrc_success key _ h⟩

/-- An instance of C6: while "a.mp4" plays, "b.mp4" is preloaded and then
played; the promotion succeeds, "b.mp4" leaves the pool and becomes the active
session, and the player is `Playing`. -/
theorem pool_never_holds_active_witness :
    (PlayerCore.exec (Command.playPreloadedSrc "b.mp4")
      (PlayerCore.exec (Command.preloadSrc "b.mp4" 0) (PlayerCore.init.run
        [ Input.command (Command.openUrl "a.mp4" 0),
          Input.pipeline PipelineEvent.openCompleted,
          Input.command Command.play ])).1).2 = 0 ∧
    "b.mp4" ∉ (PlayerCore.exec (Command.playPreloadedSrc "b.mp4")
      (PlayerCore.exec (Command.preloadSrc "b.mp4" 0) (PlayerCore.init.run
        [ Input.command (Command.openUrl "a.mp4" 0),
          Input.pipeline PipelineEvent.openCompleted,
          Input.command Command.play ])).1).1.pool ∧
    (PlayerCore.exec (Command.playPreloadedSrc "b.mp4")
      (PlayerCore.exec (Command.preloadSrc "b.mp4" 0) (PlayerCore.init.run
        [ Input.command (Command.openUrl "a.mp4" 0),
          Input.pipeline PipelineEvent.openCompleted,
          Input.command Command.play ])).1).1.active = some "b.mp4" ∧
    (PlayerCore.exec (Command.playPreloadedSrc "b.mp4")
      (PlayerCore.exec (Command.preloadSrc "b.mp4" 0) (PlayerCore.init.run
        [ Input.command (Command.openUrl "a.mp4" 0),
          Input.pipeline PipelineEvent.openCompleted,
          Input.command Command.play ])).1).1.getState =
      MEDIA_PLAYER_STATE.PLAYER_STATE_PLAYING :=
  ⟨by decide,
    (pool_never_holds_active
      [ Input.command (Command.openUrl "a.mp4" 0),
        Input.pipeline PipelineEvent.openCompleted,
        Input.command Command.play ] "b.mp4" 0).2 (by decide)⟩

/-- C7: for every player state and every key that is not in the preload pool,
`unloadSrc(key)` returns the negative code of `PLAYER_ERROR_URL_NOT_FOUND`, an
error kind of `MEDIA_PLAYER_ERROR`, and leaves the player as it was: the pool,
the active session and the playback state are unchanged. -/
theorem unloadSrc_unknown_key (p : PlayerCore) (key : String) (h : key ∉ p.pool) :
    (PlayerCore.exec (Command.unloadSrc key) p).2 =
      MEDIA_PLAYER_ERROR.PLAYER_ERROR_URL_NOT_FOUND.code ∧
    MEDIA_PLAYER_ERROR.PLAYER_ERROR_URL_NOT_FOUND ∈ MEDIA_PLAYER_ERROR.errorKinds ∧
    (PlayerCore.exec (Command.unloadSrc key) p).2 < 0 ∧
    (PlayerCore.exec (Command.unloadSrc key) p).1.pool = p.pool ∧
    (PlayerCore.exec (Command.unloadSrc key) p).1.active = p.active ∧
    (PlayerCore.exec (Command.unloadSrc key) p).1.getState = p.getState ∧
    (PlayerCore.exec (Command.unloadSrc key) p).1 = p := by
  have hc : ¬ (p.pool.contains key = true) := fun hc => h ((contains_iff_mem _ _).mp hc)
  have he : PlayerCore.exec (Command.unloadSrc key) p =
      (p, MEDIA_PLAYER_ERROR.PLAYER_ERROR_URL_NOT_FOUND.code) := by
    simp only [PlayerCore.exec]
    rw [if_neg hc]
  have hneg : MEDIA_PLAYER_ERROR.PLAYER_ERROR_URL_NOT_FOUND.code < 0 := by decide
  rw [he]
  exact ⟨rfl, by decide, hneg, rfl, rfl, rfl, rfl⟩

/-- An instance of C7: unloading "b.mp4" when only "a.mp4" is preloaded. -/
theorem unloadSrc_unknown_key_witness :
    (PlayerCore.exec (Command.unloadSrc "b.mp4")
      (PlayerCore.exec (Command.preloadSrc "a.mp4" 0) PlayerCore.init).1).2 = -10 ∧
    (PlayerCore.exec (Command.unloadSrc "b.mp4")
      (PlayerCore.exec (Command.preloadSrc "a.mp4" 0) PlayerCore.init).1).1.pool = ["a.mp4"] :=
  have h := unloadSrc_unknown_key
    (PlayerCore.exec (Command.preloadSrc "a.mp4" 0) PlayerCore.init).1 "b.mp4" (by decide)
  ⟨h.1.trans (by decide), h.2.2.2.1.trans (by decide)⟩

/-! ## The CDN switch controller -/

/-- Every CDN input keeps the line index valid once lines are populated. -/
theorem cdn_index_valid_apply (input : CDNInput) (c : CDNState)
    (hc : c.lines ≠ [] → 0 ≤ c.index ∧ c.index < c.getAgoraCDNLineCount) :
    (CDNState.apply input c).1.lines ≠ [] →
      0 ≤ (CDNState.apply input c).1.index ∧
      (CDNState.apply input c).1.index < (CDNState.apply input c).1.getAgoraCDNLineCount := by
  cases input with
  | openWithAgoraCDNSrc src startPos =>
    intro h
    exact absurd rfl h
  | linesResolved ls =>
    intro h
    have hpos : 0 < ls.length := List.length_pos.mpr h
    simp only [CDNState.apply, CDNState.getAgoraCDNLineCount]
    omega
  | switchAgoraCDNLineByIndex i =>
    simp only [CDNState.apply, CDNState.switchAgoraCDNLineByIndex]
    by_cases hi : i < 0 ∨ i ≥ c.getAgoraCDNLineCount
    · rw [if_pos hi]
      exact hc
    · rw [if_neg hi]
      intro _
      simp only [CDNState.getAgoraCDNLineCount] at hi ⊢
      omega
  | enableAutoSwitchAgoraCDN enable => exact hc
  | renewAgoraCDNSrcToken token ts => exact hc
  | lineFailed =>
    simp only [CDNState.apply]
    split
    · rename_i hcond
      intro _
      simp only [Bool.and_eq_true, decide_eq_true_eq] at hcond
      have hpos : (0 : Int) < c.getAgoraCDNLineCount := by
        simp only [CDNState.getAgoraCDNLineCount]
        omega
      exact ⟨Int.emod_nonneg _ (by omega), Int.emod_lt_of_pos _ hpos⟩
    · exact hc

/-- Every run of the CDN controller keeps the line index valid once lines are
populated. -/
theorem cdn_index_valid_run (inputs : List CDNInput) :
    ∀ c : CDNState, (c.lines ≠ [] → 0 ≤ c.index ∧ c.index < c.getAgoraCDNLineCount) →
      (c.run inputs).lines ≠ [] →
        0 ≤ (c.run inputs).index ∧ (c.run inputs).index < (c.run inputs).getAgoraCDNLineCount := by
  induction inputs with
  | nil => intro c hc; exact hc
  | cons i rest ih =>
    intro c hc
    exact ih (CDNState.apply i c).1 (cdn_index_valid_apply i c hc)

/-- C8: for every CDN state and every index `i >= getAgoraCDNLineCount()`,
`switchAgoraCDNLineByIndex(i)` returns a negative error code and
`getCurrentAgoraCDNIndex()` returns the same value after the call as before;
and in every state the controller reaches, once lines are populated the
current line index satisfies `0 <= index < lineCount`. -/
theorem switch_line_out_of_range (c : CDNState) (i : Int) (inputs : List CDNInput) :
    (i ≥ c.getAgoraCDNLineCount →
      (c.switchAgoraCDNLineByIndex i).2 < 0 ∧
      (c.switchAgoraCDNLineByIndex i).1.getCurrentAgoraCDNIndex = c.getCurrentAgoraCDNIndex ∧
      (c.switchAgoraCDNLineByIndex i).1 = c) ∧
    ((CDNState.init.run inputs).lines ≠ [] →
      0 ≤ (CDNState.init.run inputs).getCurrentAgoraCDNIndex ∧
      (CDNState.init.run inputs).getCurrentAgoraCDNIndex <
        (CDNState.init.run inputs).getAgoraCDNLineCount) := by
  have hneg : MEDIA_PLAYER_ERROR.PLAYER_ERROR_INVALID_ARGUMENTS.code < 0 := by decide
  refine ⟨fun h => ?_, fun hl => ?_⟩
  · have he : c.switchAgoraCDNLineByIndex i =
        (c, MEDIA_PLAYER_ERROR.PLAYER_ERROR_INVALID_ARGUMENTS.code) := by
      unfold CDNState.switchAgoraCDNLineByIndex
      rw [if_pos (Or.inr h)]
    rw [he]
    exact ⟨hneg, rfl, rfl⟩
  · have hv := cdn_index_valid_run inputs CDNState.init (fun h0 => absurd rfl h0) hl
    have hne : (CDNState.init.run inputs).lines.isEmpty = false := by
      cases hls : (CDNState.init.run inputs).lines with
      | nil => exact absurd hls hl
      | cons x xs => rfl
    unfold CDNState.getCurrentAgoraCDNIndex
    rw [hne]
    exact hv

/-- An instance of C8: with three lines and line 2 current, switching to line
3 fails and line 2 stays current, inside `0 <= index < 3`. -/
theorem switch_line_out_of_range_witness :
    ((CDNState.init.run
        [ CDNInput.openWithAgoraCDNSrc "src" 0, CDNInput.linesResolved ["a", "b", "c"],
          CDNInput.switchAgoraCDNLineByIndex 2 ]).switchAgoraCDNLineByIndex 3).2 < 0 ∧
    ((CDNState.init.run
        [ CDNInput.openWithAgoraCDNSrc "src" 0, CDNInput.linesResolved ["a", "b", "c"],
          CDNInput.switchAgoraCDNLineByIndex 2 ]).switchAgoraCDNLineByIndex
            3).1.getCurrentAgoraCDNIndex = 2 ∧
    (0 ≤ (CDNState.init.run
        [ CDNInput.openWithAgoraCDNSrc "src" 0, CDNInput.linesResolved ["a", "b", "c"],
          CDNInput.switchAgoraCDNLineByIndex 2 ]).getCurrentAgoraCDNIndex ∧
      (CDNState.init.run
        [ CDNInput.openWithAgoraCDNSrc "src" 0, CDNInput.linesResolved ["a", "b", "c"],
          CDNInput.switchAgoraCDNLineByIndex 2 ]).getCurrentAgoraCDNIndex <
      (CDNState.init.run
        [ CDNInput.openWithAgoraCDNSrc "src" 0, CDNInput.linesResolved ["a", "b", "c"],
          CDNInput.switchAgoraCDNLineByIndex 2 ]).getAgoraCDNLineCount) :=
  have h := switch_line_out_of_range
    (CDNState.init.run
      [ CDNInput.openWithAgoraCDNSrc "src" 0, CDNInput.linesResolved ["a", "b", "c"],
        CDNInput.switchAgoraCDNLineByIndex 2 ]) 3
    [ CDNInput.openWithAgoraCDNSrc "src" 0, CDNInput.linesResolved ["a", "b", "c"],
      CDNInput.switchAgoraCDNLineByIndex 2 ]
  have h1 := h.1 (by decide)
  ⟨h1.1, h1.2.1.trans (by decide), h.2 (by decide)⟩

/-! ## The documented cases of `setLoopCount` -/

/-- C9, as stated, fails at -1: the integer -1 falls under two documented
cases, "= -1" (repeat forever) and "<= 0" (play once), so the cases do not
give every integer exactly one mode. -/
theorem loopCount_minus_one_two_cases :
    documentedModes (-1) = [LoopMode.forever, LoopMode.once] ∧
    ¬ (∀ n : Int, (documentedModes n).length = 1) := by
  refine ⟨by decide, fun h => ?_⟩
  have h1 := h (-1)
  revert h1
  decide

/-- C9, amended: the three documented cases of `setLoopCount(n)` are
exhaustive, every integer other than -1 falls under exactly one of them
(n > 0 under "repeat times", n <= 0 under "play once"), and -1 falls under
two, "repeat forever" and "play once". -/
theorem loopCount_documented_cases (n : Int) :
    documentedModes n ≠ [] ∧
    ((documentedModes n).length = 1 ↔ n ≠ -1) ∧
    documentedModes n =
      (if n = -1 then [LoopMode.forever, LoopMode.once]
       else if n > 0 then [LoopMode.times] else [LoopMode.once]) := by
  have h := documentedModes_eq n
  refine ⟨?_, ?_, h⟩
  · rw [h]
    split
    · simp
    · split <;> simp
  · rw [h]
    by_cases h1 : n = -1
    · simp [h1]
    · by_cases h2 : n > 0
      · simp [h1, h2]
      · simp [h1, h2]


/-! ## Default arguments -/

/-- C11: `switchSrc(src)` called without a second argument is
`switchSrc(src, true)`, `switchAgoraCDNSrc(src)` called without a second
argument is `switchAgoraCDNSrc(src, false)`, and the two defaults differ. -/
theorem syncPts_defaults (overrider : String → Bool → Int) (src : String) :
    switchSrc overrider src none = switchSrc overrider src (some true) ∧
    switchSrc overrider src none = overrider src true ∧
    switchAgoraCDNSrc overrider src none = switchAgoraCDNSrc overrider src (some false) ∧
    switchAgoraCDNSrc overrider src none = overrider src false ∧
    switchSrc_syncPts_default ≠ switchAgoraCDNSrc_syncPts_default := by
  refine ⟨rfl, rfl, rfl, rfl, ?_⟩
  decide

/-! ## The capacity of `AudioPcmFrame` -/

/-- The array of a default-constructed frame has `kMaxDataSizeSamples`
samples. -/
theorem init_length : AudioPcmFrame.init.data_.length = kMaxDataSizeSamples := by
  simp [AudioPcmFrame.init]

/-- C12: `kMaxDataSizeSamples` is 3840, the documented product of 2 channels,
32 samples per millisecond and 60 ms; `kMaxDataSizeBytes` is
`kMaxDataSizeSamples * sizeof(int16_t)` = 7680, which is `sizeof(data_)` and
equals `kMaxDataSizeSamples` times the `bytes_per_sample` (2) of a
default-constructed frame. -/
theorem capacity_constants :
    kMaxDataSizeSamples = 3840 ∧
    kMaxDataSizeSamples = documentedChannels * documentedSamplesPerMs * documentedBufferMs ∧
    kMaxDataSizeBytes = kMaxDataSizeSamples * sizeof_int16_t ∧
    kMaxDataSizeBytes = 7680 ∧
    sizeof_data_ AudioPcmFrame.init = kMaxDataSizeBytes ∧
    AudioPcmFrame.init.bytes_per_sample = 2 ∧
    kMaxDataSizeSamples * AudioPcmFrame.init.bytes_per_sample = kMaxDataSizeBytes := by
  refine ⟨rfl, by decide, by decide, by decide, ?_, rfl, by decide⟩
  unfold sizeof_data_
  rw [init_length]
  decide

/-! ## What `operator=` copies and what it leaves -/

/-- The clamped `length` of `operator=` is the minimum of the wrapped product
and the capacity. -/
theorem copyLength_eq_min (src : AudioPcmFrame) :
    src.copyLength =
      min ((src.samples_per_channel_ * src.num_channels_) % SIZE_T_MODULUS)
        kMaxDataSizeSamples := by
  unfold AudioPcmFrame.copyLength
  simp only []
  split
  · omega
  · omega

/-- The result of `operator=` from another object: the metadata of the source,
and an array that holds the samples of the source below the copy length and
the samples of the destination from there on. -/
theorem assign_other (this src : AudioPcmFrame)
    (hthis : this.data_.length = kMaxDataSizeSamples)
    (hsrc : src.data_.length = kMaxDataSizeSamples) :
    ∃ d : List Int,
      this.assign (FrameRef.other src) =
        some ⟨src.capture_timestamp, src.samples_per_channel_, src.sample_rate_hz_,
          src.num_channels_, src.bytes_per_sample, d⟩ ∧
      d.length = kMaxDataSizeSamples ∧
      ∀ j, d[j]? = if j < src.copyLength then src.data_[j]? else this.data_[j]? := by
  have hle := copyLength_le src
  obtain ⟨d, hd, hlen, hget⟩ := copySamples_some src.copyLength 0 this.data_ src.data_
    (by omega) (by omega)
  refine ⟨d, ?_, by omega, fun j => ?_⟩
  · simp only [AudioPcmFrame.assign, memcpy, copyBytes_samples, hd]
  · rw [hget j]
    by_cases hj : j < src.copyLength
    · have h2 : 0 ≤ j ∧ j < 0 + src.copyLength := by omega
      rw [if_pos h2, if_pos hj]
    · have h2 : ¬ (0 ≤ j ∧ j < 0 + src.copyLength) := by omega
      rw [if_neg h2, if_neg hj]

/-- The arrays of the example frames have `kMaxDataSizeSamples` samples. -/
theorem example_lengths :
    AudioPcmFrame.exampleDestination.data_.length = kMaxDataSizeSamples ∧
    AudioPcmFrame.exampleSource.data_.length = kMaxDataSizeSamples ∧
    AudioPcmFrame.oversizedSource.data_.length = kMaxDataSizeSamples ∧
    AudioPcmFrame.wrappingSource.data_.length = kMaxDataSizeSamples := by
  have h : ([7, 8, 9, 10] ++ List.replicate (kMaxDataSizeSamples - 4) (0 : Int)).length
      = kMaxDataSizeSamples := by
    rw [List.length_append, List.length_replicate]
    decide
  exact ⟨List.length_replicate _ _, h, h, h⟩

/-- Two samples of the example frames: sample 3 of the source is 10, sample 4
of the destination is 5. -/
theorem example_samples :
    AudioPcmFrame.exampleSource.data_[3]? = some 10 ∧
    AudioPcmFrame.exampleDestination.data_[4]? = some 5 := by
  constructor
  · show ([7, 8, 9, 10] ++ List.replicate (kMaxDataSizeSamples - 4) (0 : Int))[3]? = some 10
    rw [List.getElem?_append_left (by decide)]
    rfl
  · show (List.replicate kMaxDataSizeSamples (5 : Int))[4]? = some 5
    exact List.getElem?_replicate_of_lt (by decide)

/-- C13: for every destination `this` and source `src`, after `*this = src`
the five metadata fields of the destination equal those of the source, and
sample `i` of the destination equals sample `i` of the source for every
`i < min(L, 3840)`, where `L` is `samples_per_channel_ * num_channels_` of the
source in `size_t` arithmetic; a self-assignment leaves the frame as it is. -/
theorem assign_copies_metadata_and_head (this src : AudioPcmFrame)
    (hthis : this.data_.length = kMaxDataSizeSamples)
    (hsrc : src.data_.length = kMaxDataSizeSamples) :
    this.assign FrameRef.self = some this ∧
    ∃ r, this.assign (FrameRef.other src) = some r ∧
      r.capture_timestamp = src.capture_timestamp ∧
      r.samples_per_channel_ = src.samples_per_channel_ ∧
      r.sample_rate_hz_ = src.sample_rate_hz_ ∧
      r.num_channels_ = src.num_channels_ ∧
      r.bytes_per_sample = src.bytes_per_sample ∧
      ∀ i, i < min ((src.samples_per_channel_ * src.num_channels_) % SIZE_T_MODULUS)
          kMaxDataSizeSamples →
        i < r.data_.length ∧ i < src.data_.length ∧ r.data_[i]? = src.data_[i]? := by
  obtain ⟨d, hd, hlen, hget⟩ := assign_other this src hthis hsrc
  refine ⟨rfl, _, hd, rfl, rfl, rfl, rfl, rfl, fun i hi => ?_⟩
  rw [← copyLength_eq_min] at hi
  have hle := copyLength_le src
  refine ⟨by simp only [hlen]; omega, by omega, ?_⟩
  show d[i]? = src.data_[i]?
  rw [hget i, if_pos hi]

/-- An instance of C13: assigning the example source to the example
destination copies its metadata and its four declared samples. -/
theorem assign_copies_metadata_and_head_witness :
    ∃ r, AudioPcmFrame.exampleDestination.assign
        (FrameRef.other AudioPcmFrame.exampleSource) = some r ∧
      r.samples_per_channel_ = 2 ∧ r.num_channels_ = 2 ∧ r.sample_rate_hz_ = 32000 ∧
      r.data_[3]? = some 10 := by
  obtain ⟨_, r, hr, _, hs, hz, hn, _, hd⟩ :=
    assign_copies_metadata_and_head AudioPcmFrame.exampleDestination AudioPcmFrame.exampleSource
      example_lengths.1 example_lengths.2.1
  exact ⟨r, hr, hs, hn, hz, (hd 3 (by decide)).2.2.trans example_samples.1⟩

/-- C14: `operator=` leaves the tail of the destination untouched: every sample
with `min(L, 3840) <= i < 3840` has the same value after `*this = src` as
before; the assigned array equals the array of the source exactly when the
destination already agreed with the source on that tail; and assigning a
default-constructed frame resets the metadata but clears no sample. -/
theorem assign_leaves_tail (this src : AudioPcmFrame)
    (hthis : this.data_.length = kMaxDataSizeSamples)
    (hsrc : src.data_.length = kMaxDataSizeSamples) :
    ∃ r, this.assign (FrameRef.other src) = some r ∧
      (∀ i, min ((src.samples_per_channel_ * src.num_channels_) % SIZE_T_MODULUS)
          kMaxDataSizeSamples ≤ i → i < kMaxDataSizeSamples →
        r.data_[i]? = this.data_[i]?) ∧
      (r.data_ = src.data_ ↔
        ∀ i, min ((src.samples_per_channel_ * src.num_channels_) % SIZE_T_MODULUS)
          kMaxDataSizeSamples ≤ i → i < kMaxDataSizeSamples →
        this.data_[i]? = src.data_[i]?) ∧
      this.assign (FrameRef.other AudioPcmFrame.init) =
        some { AudioPcmFrame.init with data_ := this.data_ } := by
  obtain ⟨d, hd, hlen, hget⟩ := assign_other this src hthis hsrc
  rw [← copyLength_eq_min]
  refine ⟨_, hd, fun i hi _ => ?_, ⟨fun heq i hi _ => ?_, fun htail => ?_⟩, ?_⟩
  · show d[i]? = this.data_[i]?
    rw [hget i, if_neg (by omega)]
  · have h1 : d[i]? = this.data_[i]? := by rw [hget i, if_neg (by omega)]
    have h2 : d = src.data_ := heq
    rw [← h1, h2]
  · show d = src.data_
    apply List.ext_getElem?
    intro n
    rw [hget n]
    by_cases hn : n < src.copyLength
    · rw [if_pos hn]
    · rw [if_neg hn]
      by_cases hk : n < kMaxDataSizeSamples
      · exact htail n (by omega) hk
      · rw [List.getElem?_eq_none (by omega), List.getElem?_eq_none (by omega)]
  · rfl

/-- An instance of C14: after assigning the example source, sample 4 of
the example destination still has its old value 5, and after assigning a
default-constructed frame every sample of the destination is still there. -/
theorem assign_leaves_tail_witness :
    (∃ r, AudioPcmFrame.exampleDestination.assign
        (FrameRef.other AudioPcmFrame.exampleSource) = some r ∧ r.data_[4]? = some 5) ∧
    AudioPcmFrame.exampleDestination.assign (FrameRef.other AudioPcmFrame.init) =
      some { AudioPcmFrame.init with data_ := AudioPcmFrame.exampleDestination.data_ } := by
  obtain ⟨r, hr, htail, _, hinit⟩ :=
    assign_leaves_tail AudioPcmFrame.exampleDestination AudioPcmFrame.exampleSource
      example_lengths.1 example_lengths.2.1
  exact ⟨⟨r, hr, (htail 4 (by decide) (by decide)).trans example_samples.2⟩, hinit⟩

/-- C15: `operator=` clamps the number of samples copied, not the metadata: the
declared sample count of the destination after `*this = src` is that of the
source. So "declared sample count <= capacity" holds for a default-constructed
frame and is preserved by assignment from a source that satisfies it, but it
is not established by assignment from an arbitrary source: after assigning a
source that declares 3841 samples, of which 3840 are copied, the destination
declares 3841 samples, more than `kMaxDataSizeSamples`. -/
theorem assign_keeps_declared_count (this src : AudioPcmFrame)
    (hthis : this.data_.length = kMaxDataSizeSamples)
    (hsrc : src.data_.length = kMaxDataSizeSamples) :
    AudioPcmFrame.init.declaredWithinCapacity = true ∧
    (∃ r, this.assign (FrameRef.other src) = some r ∧
      r.declaredSamples = src.declaredSamples ∧
      r.declaredWithinCapacity = src.declaredWithinCapacity) ∧
    (∃ r, this.assign (FrameRef.other AudioPcmFrame.oversizedSource) = some r ∧
      AudioPcmFrame.oversizedSource.copyLength = kMaxDataSizeSamples ∧
      r.declaredSamples = 3841 ∧
      kMaxDataSizeSamples < r.declaredSamples ∧
      kMaxDataSizeSamples < (r.samples_per_channel_ * r.num_channels_) % SIZE_T_MODULUS ∧
      r.declaredWithinCapacity = false) := by
  obtain ⟨d, hd, _, _⟩ := assign_other this src hthis hsrc
  obtain ⟨e, he, _, _⟩ := assign_other this AudioPcmFrame.oversizedSource hthis
    example_lengths.2.2.1
  refine ⟨by decide, ⟨_, hd, rfl, rfl⟩, ⟨_, he, by decide, ?_, ?_, ?_, ?_⟩⟩
  · show AudioPcmFrame.oversizedSource.declaredSamples = 3841
    decide
  · show kMaxDataSizeSamples < AudioPcmFrame.oversizedSource.declaredSamples
    decide
  · show kMaxDataSizeSamples < (AudioPcmFrame.oversizedSource.samples_per_channel_ *
      AudioPcmFrame.oversizedSource.num_channels_) % SIZE_T_MODULUS
    decide
  · show AudioPcmFrame.oversizedSource.declaredWithinCapacity = false
    decide

/-- An instance of C15: the example destination, which declares 160 samples,
declares 3841 after the oversized source is assigned to it. -/
theorem assign_keeps_declared_count_witness :
    AudioPcmFrame.exampleDestination.declaredWithinCapacity = true ∧
    ∃ r, AudioPcmFrame.exampleDestination.assign
        (FrameRef.other AudioPcmFrame.oversizedSource) = some r ∧
      r.declaredSamples = 3841 ∧ r.declaredWithinCapacity = false := by
  obtain ⟨_, _, r, hr, _, hcount, _, _, hcap⟩ :=
    assign_keeps_declared_count AudioPcmFrame.exampleDestination AudioPcmFrame.exampleSource
      example_lengths.1 example_lengths.2.1
  exact ⟨by decide, r, hr, hcount, hcap⟩

/-- C16: the copy length of `operator=` is computed with wrapping `size_t`
multiplication: the number of samples copied is
`min((samples_per_channel_ * num_channels_) mod 2^64, 3840)`, the samples below
it coming from the source and the rest being those of the destination. For the
source with `samples_per_channel_ = 2^63 > 0` and `num_channels_ = 2 > 0` the
product wraps to 0 and no sample is copied, although the product of the two
numbers exceeds the capacity. -/
theorem copy_length_wraps (this src : AudioPcmFrame)
    (hthis : this.data_.length = kMaxDataSizeSamples)
    (hsrc : src.data_.length = kMaxDataSizeSamples) :
    src.copyLength =
      min ((src.samples_per_channel_ * src.num_channels_) % 2 ^ 64) 3840 ∧
    (∃ r, this.assign (FrameRef.other src) = some r ∧
      ∀ j, r.data_[j]? =
        if j < min ((src.samples_per_channel_ * src.num_channels_) % 2 ^ 64) 3840
        then src.data_[j]? else this.data_[j]?) ∧
    AudioPcmFrame.wrappingSource.samples_per_channel_ = 2 ^ 63 ∧
    AudioPcmFrame.wrappingSource.num_channels_ = 2 ∧
    AudioPcmFrame.wrappingSource.representable = true ∧
    kMaxDataSizeSamples < AudioPcmFrame.wrappingSource.declaredSamples ∧
    (AudioPcmFrame.wrappingSource.samples_per_channel_ *
      AudioPcmFrame.wrappingSource.num_channels_) % SIZE_T_MODULUS = 0 ∧
    AudioPcmFrame.wrappingSource.copyLength = 0 ∧
    (∃ r, this.assign (FrameRef.other AudioPcmFrame.wrappingSource) = some r ∧
      r.samples_per_channel_ = 2 ^ 63 ∧ r.num_channels_ = 2 ∧ r.data_ = this.data_) := by
  have hmin := copyLength_eq_min src
  have hM : SIZE_T_MODULUS = 2 ^ 64 := rfl
  have hK : kMaxDataSizeSamples = 3840 := rfl
  rw [hM, hK] at hmin
  obtain ⟨d, hd, _, hget⟩ := assign_other this src hthis hsrc
  have hrep : AudioPcmFrame.wrappingSource.representable = true := by
    simp only [AudioPcmFrame.representable, example_lengths.2.2.2, Bool.and_eq_true,
      decide_eq_true_eq, and_true]
    decide
  refine ⟨hmin, ⟨_, hd, fun j => ?_⟩, rfl, rfl, hrep, by decide, by decide, by decide,
    ⟨_, rfl, rfl, rfl, rfl⟩⟩
  show d[j]? = _
  rw [hget j, hmin]

/-- An instance of C16: the example source declares 2 x 2 samples, so four
samples are copied; the wrapping source declares 2^63 x 2 samples and none is
copied into the example destination. -/
theorem copy_length_wraps_witness :
    AudioPcmFrame.exampleSource.copyLength = 4 ∧
    ∃ r, AudioPcmFrame.exampleDestination.assign
        (FrameRef.other AudioPcmFrame.wrappingSource) = some r ∧
      r.data_ = AudioPcmFrame.exampleDestination.data_ := by
  have h := copy_length_wraps AudioPcmFrame.exampleDestination AudioPcmFrame.exampleSource
    example_lengths.1 example_lengths.2.1
  obtain ⟨r, hr, _, _, hdata⟩ := h.2.2.2.2.2.2.2.2
  exact ⟨h.1.trans (by decide), r, hr, hdata⟩


/-! ## The documented graph on inputs and notifications -/

/-- What the validation of `playPreloadedSrc` rests on: a change from `Idle`,
`Opening`, `Stopped`, `Failed` or a completed playback straight to `Playing`
is no documented change, whatever the input and the loop count. -/
theorem direct_playing_off_graph (p : PlayerCore) (i : Input) (a : MEDIA_PLAYER_STATE)
    (h : documentedChange p i a MEDIA_PLAYER_STATE.PLAYER_STATE_PLAYING = true) :
    a = MEDIA_PLAYER_STATE.PLAYER_STATE_OPEN_COMPLETED ∨
      a = MEDIA_PLAYER_STATE.PLAYER_STATE_PAUSED := by
  cases a <;> simp [documentedChange] at h <;> simp

end agora.mpc
